import Mathlib

/-!
# Parachute game (`src/web/main.js`): simulation core

A shallow embedding of the simulation part of `src/web/main.js`: the `Player`
class (`deployParachute`, `update`, `checkCollision`), the level generator
(`createObstacles`, `createLandingZones`), the wind process, the score
calculation, the high-score list and the scene `update` function.

JavaScript numbers are modelled as exact rationals (`ℚ`); values that the code
only ever produces as integers (`score`, `windTimer`, the high scores) are `ℤ`.
Drawing, sound, camera effects and clouds have no influence on the simulation
state and are left out. Random draws (`Phaser.Math.Between`, `FloatBetween`)
and key states are explicit inputs.
-/

namespace ParachuteGame

/-! ## Constants -/

/-- World width, `const GAME_WIDTH = 800`. -/
def GAME_WIDTH : ℚ := 800

/-- World height, `const GAME_HEIGHT = 600`. -/
def GAME_HEIGHT : ℚ := 600

/-- Ground line, `const GROUND_Y = GAME_HEIGHT - 20`. -/
def GROUND_Y : ℚ := GAME_HEIGHT - 20

/-! ## Data model -/

/-- The two cursor keys read by `Player.update`: `cursors.left.isDown` and
`cursors.right.isDown`. -/
structure Cursors where
  left : Bool
  right : Bool
  deriving DecidableEq, Repr

/-- The simulation fields of `class Player` (graphics objects left out). -/
structure Player where
  width : ℚ
  height : ℚ
  x : ℚ
  y : ℚ
  velocityX : ℚ
  velocityY : ℚ
  gravity : ℚ
  maxSpeed : ℚ
  parachuteDeployed : Bool
  parachuteWidth : ℚ
  parachuteHeight : ℚ
  alive : Bool
  landed : Bool
  wind : ℚ
  parachuteDeployHeight : ℚ
  deriving DecidableEq, Repr

/-- The simulation fields of `class Obstacle`. -/
structure Obstacle where
  x : ℚ
  width : ℚ
  height : ℚ
  y : ℚ
  deriving DecidableEq, Repr

/-- A landing zone object literal `{x, y, width, height}`. -/
structure LandingZone where
  x : ℚ
  y : ℚ
  width : ℚ
  height : ℚ
  deriving DecidableEq, Repr

/-- The `Player` constructor: `new Player(scene, x, y)`. -/
def Player.new (x y : ℚ) : Player :=
  { width := 40
    height := 60
    x := x
    y := y
    velocityX := 0
    velocityY := 1
    gravity := 2 / 10
    maxSpeed := 7
    parachuteDeployed := false
    parachuteWidth := 80
    parachuteHeight := 40
    alive := true
    landed := false
    wind := 0
    parachuteDeployHeight := 0 }

/-- The `Obstacle` constructor: `new Obstacle(scene, x, width, height)`, with
`y = GROUND_Y - height`. -/
def Obstacle.new (x width height : ℚ) : Obstacle :=
  { x := x, width := width, height := height, y := GROUND_Y - height }

/-! ## `Player` methods -/

/-- Method `Player.deployParachute()`. -/
def Player.deployParachute (p : Player) : Player :=
  if !p.parachuteDeployed then
    { p with
      parachuteDeployed := true
      parachuteDeployHeight := p.y
      gravity := 5 / 100
      maxSpeed := 2 }
  else p

/-- First block of `Player.update`: the new `velocityX` from the cursor keys. -/
def Player.handleInput (p : Player) (cursors : Cursors) : ℚ :=
  if cursors.left then max (-3) (p.velocityX - 2 / 10)
  else if cursors.right then min 3 (p.velocityX + 2 / 10)
  else if p.velocityX > 0 then max 0 (p.velocityX - 1 / 10)
  else if p.velocityX < 0 then min 0 (p.velocityX + 1 / 10)
  else p.velocityX

/-- Second block of `Player.update`: `velocityX` after the wind effect, applied
only when the parachute is deployed. -/
def Player.windedVelocityX (p : Player) (cursors : Cursors) : ℚ :=
  if p.parachuteDeployed then p.handleInput cursors + p.wind * (1 / 10)
  else p.handleInput cursors

/-- The position `this.x += this.velocityX` before the screen-bounds check. -/
def Player.unclampedX (p : Player) (cursors : Cursors) : ℚ :=
  p.x + p.windedVelocityX cursors

/-- Horizontal part of `Player.update`: input, wind, move, keep within screen
bounds. -/
def Player.updateHorizontal (p : Player) (cursors : Cursors) : Player :=
  if p.unclampedX cursors < 0 then
    { p with x := 0, velocityX := 0 }
  else if p.unclampedX cursors > GAME_WIDTH - p.width then
    { p with x := GAME_WIDTH - p.width, velocityX := 0 }
  else
    { p with x := p.unclampedX cursors, velocityX := p.windedVelocityX cursors }

/-- Vertical part of `Player.update`: gravity, applied while not landed. -/
def Player.applyGravity (p : Player) : Player :=
  if !p.landed then
    { p with
      velocityY := min p.maxSpeed (p.velocityY + p.gravity)
      y := p.y + min p.maxSpeed (p.velocityY + p.gravity) }
  else p

/-- Method `Player.update(cursors)`. -/
def Player.update (p : Player) (cursors : Cursors) : Player :=
  (p.updateHorizontal cursors).applyGravity

/-- The rectangle test of `checkCollision` between the player bounds and one
obstacle's bounds. -/
def Player.hits (p : Player) (o : Obstacle) : Bool :=
  decide (p.x + p.width > o.x) && decide (p.x < o.x + o.width) &&
    decide (p.y + p.height > o.y) && decide (p.y < o.y + o.height)

/-- The `for (let obstacle of obstacles)` loop of `checkCollision`: `true` when
the loop body reaches its `return true`. -/
def Player.hitsAny (p : Player) : List Obstacle → Bool
  | [] => false
  | o :: rest => if p.hits o then true else p.hitsAny rest

/-- Method `Player.checkCollision(obstacles)`: the player after the call and the
returned boolean. -/
def Player.checkCollision (p : Player) (obstacles : List Obstacle) : Player × Bool :=
  if p.hitsAny obstacles then
    ({ p with alive := false }, true)
  else if p.y + p.height ≥ GROUND_Y then
    if p.velocityY > 3 then
      ({ p with y := GROUND_Y - p.height, landed := true, alive := false }, true)
    else
      ({ p with y := GROUND_Y - p.height, landed := true }, true)
  else (p, false)

/-! ## Plane -/

/-- The simulation fields of `class Plane`. -/
structure Plane where
  width : ℚ
  height : ℚ
  x : ℚ
  y : ℚ
  speed : ℚ
  active : Bool
  deriving DecidableEq, Repr

/-- The `Plane` constructor: it starts left of the screen at `x = -width`. -/
def Plane.new : Plane :=
  { width := 100, height := 30, x := -100, y := 30, speed := 3, active := true }

/-- Method `Plane.update()`. -/
def Plane.update (pl : Plane) : Plane :=
  if pl.active then
    if pl.x + pl.speed > GAME_WIDTH then
      { pl with x := -pl.width, active := false }
    else
      { pl with x := pl.x + pl.speed }
  else pl

/-! ## Level generation -/

/-- Function `createObstacles(scene)`. The random draws are inputs: `positions` are the
`numObstacles` values of `Phaser.Math.Between(100, GAME_WIDTH - 100)` and
`sizes` the `(width, height)` pairs drawn for the sorted positions in order. -/
def createObstacles (positions : List ℚ) (sizes : List (ℚ × ℚ)) : List Obstacle :=
  List.zipWith (fun pos s => Obstacle.new pos s.1 s.2)
    (positions.insertionSort (fun a b => a ≤ b)) sizes

/-- The draws of `createObstacles` are in the ranges the code asks for: 5 to 8
integer positions in `[100, GAME_WIDTH - 100]`, integer widths in `[30, 80]`
and integer heights in `[40, 100]`. -/
def validObstacleDraws (positions : List ℚ) (sizes : List (ℚ × ℚ)) : Prop :=
  5 ≤ positions.length ∧ positions.length ≤ 8 ∧ sizes.length = positions.length ∧
  (∀ pos ∈ positions, pos.den = 1 ∧ 100 ≤ pos ∧ pos ≤ GAME_WIDTH - 100) ∧
  (∀ s ∈ sizes, s.1.den = 1 ∧ 30 ≤ s.1 ∧ s.1 ≤ 80 ∧ s.2.den = 1 ∧ 40 ≤ s.2 ∧ s.2 ≤ 100)

instance (positions : List ℚ) (sizes : List (ℚ × ℚ)) :
    Decidable (validObstacleDraws positions sizes) := by
  unfold validObstacleDraws
  infer_instance

/-- The call `obstacles.slice().sort((a, b) => a.x - b.x)`: a stable sort by `x`. -/
def sortByX (obstacles : List Obstacle) : List Obstacle :=
  obstacles.insertionSort (fun a b => a.x ≤ b.x)

/-- First block of `createLandingZones`: the zone before the first obstacle. -/
def leadingZone : List Obstacle → List LandingZone
  | [] => []
  | first :: _ =>
    if first.x > 100 then
      [{ x := first.x - min 100 (first.x - 50) - 10
         y := GROUND_Y - 10
         width := min 100 (first.x - 50)
         height := 10 }]
    else []

/-- The horizontal gap `sortedObstacles[i + 1].x - (sortedObstacles[i].x +
sortedObstacles[i].width)` between two neighbours. -/
def gapBetween (a b : Obstacle) : ℚ := b.x - (a.x + a.width)

/-- The zone pushed for two neighbours whose gap exceeds 80. -/
def gapZone (a b : Obstacle) : LandingZone :=
  { x := a.x + a.width + (gapBetween a b - min (gapBetween a b - 20) 100) / 2
    y := GROUND_Y - 10
    width := min (gapBetween a b - 20) 100
    height := 10 }

/-- Second block of `createLandingZones`: the loop over neighbouring pairs
`i`, `i + 1` of the sorted obstacles. -/
def betweenZones : List Obstacle → List LandingZone
  | a :: b :: rest =>
    if gapBetween a b > 80 then gapZone a b :: betweenZones (b :: rest)
    else betweenZones (b :: rest)
  | _ => []

/-- Third block of `createLandingZones`: the zone after the last obstacle. -/
def trailingZone (sorted : List Obstacle) : List LandingZone :=
  match sorted.getLast? with
  | none => []
  | some last =>
    if last.x + last.width < GAME_WIDTH - 100 then
      [{ x := last.x + last.width + 10
         y := GROUND_Y - 10
         width := min 100 (GAME_WIDTH - (last.x + last.width) - 50)
         height := 10 }]
    else []

/-- Function `createLandingZones(scene, obstacles)`. -/
def createLandingZones (obstacles : List Obstacle) : List LandingZone :=
  leadingZone (sortByX obstacles) ++ betweenZones (sortByX obstacles) ++
    trailingZone (sortByX obstacles)

/-! ## Round state -/

/-- The simulation fields of the global `gameState`. `player` and `plane` are
never `null` when the functions below run, because `create` calls `resetGame`
before the first `update`. -/
structure GameState where
  score : ℤ
  gameOver : Bool
  jumping : Bool
  windDirection : ℚ
  windTimer : ℤ
  highScores : List ℤ
  player : Player
  plane : Plane
  obstacles : List Obstacle
  landingZones : List LandingZone
  deriving DecidableEq, Repr

/-- What one call of the scene `update` reads from the keyboard:
`cursors.left.isDown`, `cursors.right.isDown`, and the values that
`JustDown(spaceKey)` and `JustDown(rKey)` return when they are evaluated. -/
structure Input where
  left : Bool
  right : Bool
  spaceJustDown : Bool
  rJustDown : Bool
  deriving DecidableEq, Repr

/-- The random draws that one call of the scene `update` may consume:
`windTimer` for `Phaser.Math.Between(180, 360)`, `windDirection` for
`Phaser.Math.FloatBetween(-1, 1)`, and the draws of `createObstacles`. -/
structure Draws where
  windTimer : ℤ
  windDirection : ℚ
  positions : List ℚ
  sizes : List (ℚ × ℚ)
  deriving DecidableEq, Repr

/-- Function `updateWind()`. -/
def updateWind (g : GameState) (d : Draws) : GameState :=
  if g.windTimer - 1 ≤ 0 then
    { g with
      windTimer := d.windTimer
      windDirection := d.windDirection
      player := { g.player with wind := d.windDirection } }
  else
    { g with windTimer := g.windTimer - 1 }

/-! ## Score -/

/-- First loop of `calculateScore`: `landingScore` starts at 1000 and every
obstacle subtracts `|player.x - (obstacle.x + obstacle.width / 2)|` divided by
the number of obstacles. -/
def landingBase (g : GameState) : ℚ :=
  g.obstacles.foldl
    (fun s o => s - |g.player.x - (o.x + o.width / 2)| / (g.obstacles.length : ℚ)) 1000

/-- Second loop of `calculateScore`: adds 500 at the first zone that contains
`playerCenterX` and leaves the loop (`break`). -/
def addZoneBonus (playerCenterX : ℚ) (landingScore : ℚ) : List LandingZone → ℚ
  | [] => landingScore
  | zone :: rest =>
    if playerCenterX ≥ zone.x ∧ playerCenterX ≤ zone.x + zone.width then landingScore + 500
    else addZoneBonus playerCenterX landingScore rest

/-- The constant `timeBonus = Math.max(0, 200 - gameState.player.parachuteDeployHeight)`. -/
def timeBonus (g : GameState) : ℚ := max 0 (200 - g.player.parachuteDeployHeight)

/-- Function `calculateScore()`. -/
def calculateScore (g : GameState) : ℤ :=
  if !g.player.alive then 0
  else
    max 0 ⌊addZoneBonus (g.player.x + g.player.width / 2) (landingBase g) g.landingZones
      + timeBonus g⌋

/-- Function `updateHighScores(newScore)`: push, sort descending, keep the first 10. -/
def updateHighScores (g : GameState) (newScore : ℤ) : GameState :=
  if g.player.alive then
    { g with
      highScores := ((g.highScores ++ [newScore]).insertionSort (fun a b => b ≤ a)).take 10 }
  else g

/-! ## Scene -/

/-- Function `resetGame(scene)`. -/
def resetGame (g : GameState) (d : Draws) : GameState :=
  { g with
    score := 0
    gameOver := false
    jumping := false
    windDirection := 0
    windTimer := 0
    player := Player.new (GAME_WIDTH / 2) 50
    plane := Plane.new
    obstacles := createObstacles d.positions d.sizes
    landingZones := createLandingZones (createObstacles d.positions d.sizes) }

/-- The jump check of the scene `update`: the player leaves the plane once the
middle of the plane has passed a third of the screen. -/
def jumpCheck (g : GameState) : GameState :=
  if !g.jumping && decide (g.plane.x + g.plane.width / 2 > GAME_WIDTH / 3) then
    { g with
      jumping := true
      player := { g.player with
        x := g.plane.x + g.plane.width / 2
        y := g.plane.y + g.plane.height } }
  else g

/-- The state of the round when the scene `update` reaches its player block:
after `updateWind`, `plane.update` and the jump check. -/
def beforePlayer (g : GameState) (d : Draws) : GameState :=
  jumpCheck { updateWind g d with plane := (updateWind g d).plane.update }

/-- The player after the parachute handling and `player.update(cursors)` of
the player block, before `checkCollision`. -/
def movedPlayer (g : GameState) (inp : Input) : Player :=
  (if inp.spaceJustDown && !g.player.parachuteDeployed then g.player.deployParachute
   else g.player).update ⟨inp.left, inp.right⟩

/-- What the player block does once `checkCollision` has returned `true`. -/
def endRound (g : GameState) : GameState :=
  let g1 := { g with gameOver := true }
  if g1.player.landed && g1.player.alive then
    updateHighScores { g1 with score := calculateScore g1 } (calculateScore g1)
  else g1

/-- The player block of the scene `update`. -/
def playerStep (g : GameState) (inp : Input) : GameState :=
  if g.jumping && !g.gameOver && g.player.alive then
    if ((movedPlayer g inp).checkCollision g.obstacles).2 then
      endRound { g with player := ((movedPlayer g inp).checkCollision g.obstacles).1 }
    else
      { g with player := ((movedPlayer g inp).checkCollision g.obstacles).1 }
  else g

/-- The restart handling of the scene `update`. -/
def handleRestart (g : GameState) (inp : Input) (d : Draws) : GameState :=
  if g.gameOver && inp.rJustDown then resetGame g d else g

/-- The scene `update()`: one tick. -/
def update (g : GameState) (inp : Input) (d : Draws) : GameState :=
  handleRestart (playerStep (beforePlayer g d) inp) inp d

/-- The round states of a game: `create` calls `resetGame`, and every frame
calls the scene `update`. -/
inductive Reachable : GameState → Prop
  | reset (g : GameState) (d : Draws) : Reachable (resetGame g d)
  | tick {g : GameState} (inp : Input) (d : Draws) :
      Reachable g → Reachable (update g inp d)

/-- Runs the scene `update` once for every element of `steps`, in order. -/
def run (g : GameState) (steps : List (Input × Draws)) : GameState :=
  steps.foldl (fun s step => update s step.1 step.2) g

/-! ## Concrete rounds used below -/

/-- Draws of `createObstacles` in which the first obstacle (at 100, 80 wide)
reaches beyond the second one (at 101, 30 wide). -/
def nestedPositions : List ℚ := [100, 101, 250, 400, 600]

/-- The sizes drawn with `nestedPositions`. -/
def nestedSizes : List (ℚ × ℚ) := [(80, 40), (30, 40), (30, 40), (30, 40), (30, 40)]

/-- A state with no round yet, as the script leaves `gameState` before
`create` runs (with an empty stored high-score list). -/
def blankState : GameState :=
  { score := 0
    gameOver := false
    jumping := false
    windDirection := 0
    windTimer := 0
    highScores := []
    player := Player.new 0 0
    plane := Plane.new
    obstacles := []
    landingZones := [] }

/-- The keyboard with no key pressed. -/
def noKeys : Input := ⟨false, false, false, false⟩

/-- The player six ticks after leaving the plane at `(268, 60)`, no key touched:
`velocityY` has grown from 1 to 2.2. -/
def sixTicksDown : Player :=
  Nat.iterate (fun p => p.update ⟨false, false⟩) 6 (Player.new 268 60)

/-- A slow player (`velocityY = 2`, parachute open) whose feet are below the
ground line and whose right edge is inside an obstacle. -/
def slowIntoObstacle : Player :=
  { (Player.new 261 521).deployParachute with velocityY := 2 }

/-- What holds of a round between two ticks: `velocityY` is within the
current cap, and while the round is not over the player has not landed and the
score is still 0. -/
def RoundInv (g : GameState) : Prop :=
  g.player.velocityY ≤ g.player.maxSpeed ∧
  (g.gameOver = false → g.player.landed = false ∧ g.score = 0)

/-- The score as the specification words it: 1000 minus the average distance
between the player's centre `player.x + player.width / 2` and the obstacle
centres, plus 500 when the player's centre is inside some landing zone, plus
`max(0, 200 - parachuteDeployHeight)`, floored and not below 0. -/
def centreDistanceScore (g : GameState) : ℤ :=
  max 0 ⌊1000
    - (g.obstacles.map (fun o =>
        |(g.player.x + g.player.width / 2) - (o.x + o.width / 2)|)).sum
      / (g.obstacles.length : ℚ)
    + (if ∃ zone ∈ g.landingZones, zone.x ≤ g.player.x + g.player.width / 2 ∧
          g.player.x + g.player.width / 2 ≤ zone.x + zone.width then 500 else 0)
    + max 0 (200 - g.player.parachuteDeployHeight)⌋

/-- A player standing on the ground at `x = 380` (centre 400) after a soft
landing under the parachute, which was deployed at `y = deployY`. -/
def landedPlayer (deployY : ℚ) : Player :=
  { Player.new 380 520 with
    velocityY := 2
    gravity := 5 / 100
    maxSpeed := 2
    parachuteDeployed := true
    parachuteDeployHeight := deployY
    landed := true }

/-- Obstacle draws of a round with five obstacles, centres at 220, 500, 620,
670 and 720. -/
def fivePositions : List ℚ := [200, 480, 600, 650, 700]

/-- The sizes drawn with `fivePositions`. -/
def fiveSizes : List (ℚ × ℚ) := [(40, 50), (40, 50), (40, 50), (40, 50), (40, 50)]

/-- A finished round with the five obstacles of `fivePositions`: the player has
landed at `x = 380`, inside the landing zone `[310, 410]`, having deployed the
parachute at `y = deployY`. -/
def landedRound (deployY : ℚ) : GameState :=
  { blankState with
    gameOver := true
    jumping := true
    player := landedPlayer deployY
    obstacles := createObstacles fivePositions fiveSizes
    landingZones := createLandingZones (createObstacles fivePositions fiveSizes) }

/-- End-to-end scenario A of the specification: three obstacles whose centres
(300, 500, 500) are each 100 away from the player's centre 400, the player's
centre inside the landing zone `[345, 445]`, parachute deployed at `y = 50`. -/
def scenarioA : GameState :=
  { blankState with
    gameOver := true
    jumping := true
    player := landedPlayer 50
    obstacles := [Obstacle.new 280 40 50, Obstacle.new 470 60 50, Obstacle.new 480 40 50]
    landingZones := createLandingZones
      [Obstacle.new 280 40 50, Obstacle.new 470 60 50, Obstacle.new 480 40 50] }

/-- A finished round without obstacles and with two overlapping landing zones
that both contain the player's centre 400. -/
def twoZonesRound : GameState :=
  { blankState with
    gameOver := true
    jumping := true
    player := landedPlayer 150
    landingZones := [⟨350, 570, 100, 10⟩, ⟨390, 570, 100, 10⟩] }

/-- Draws of a round whose first obstacle (80 wide, 100 high) stands at
`x = 268`, right under the point where the player leaves the plane. -/
def crashDraws : Draws :=
  { windTimer := 200
    windDirection := 1 / 2
    positions := [268, 400, 500, 600, 700]
    sizes := [(80, 100), (30, 40), (30, 40), (30, 40), (30, 40)] }

/-- The keyboard with only the restart key reported by `JustDown(rKey)`. -/
def restartKey : Input := ⟨false, false, false, true⟩

/-- The round of `crashDraws` after 168 ticks without any key: the player left
the plane in tick 106 and is in free fall at `y = 414`, one tick above the
obstacle top at `y = 480`. -/
def beforeCrash : GameState :=
  run (resetGame blankState crashDraws) (List.replicate 168 (noKeys, crashDraws))

/-- A finished round with eleven stored high scores in no particular order. -/
def elevenScores : GameState :=
  { landedRound 150 with highScores := [5, 900, 30, 1200, 30, 7, 640, 2, 1500, 88, 410] }

/-- The round of `crashDraws` after 120 ticks without any key: the player left
the plane in tick 106 and is alive in free fall at `y = 99`. -/
def midAir : GameState :=
  run (resetGame blankState crashDraws) (List.replicate 120 (noKeys, crashDraws))

/-- Calls `updateWind` once for every element of `draws`, in order. -/
def windRun (g : GameState) (draws : List Draws) : GameState :=
  draws.foldl updateWind g

/-- Draws that offer the wind direction `-1` and the timer 180. -/
def westDraws : Draws := { crashDraws with windTimer := 180, windDirection := -1 }

/-- The result of a round is the same in `g2` as in `g1`: the player's
position, velocity, `alive`, `landed` and `parachuteDeployed`, the score, the
high-score list and `gameOver` agree. -/
def sameResult (g1 g2 : GameState) : Prop :=
  g2.player.x = g1.player.x ∧ g2.player.y = g1.player.y ∧
  g2.player.velocityX = g1.player.velocityX ∧ g2.player.velocityY = g1.player.velocityY ∧
  g2.player.alive = g1.player.alive ∧ g2.player.landed = g1.player.landed ∧
  g2.player.parachuteDeployed = g1.player.parachuteDeployed ∧
  g2.score = g1.score ∧ g2.highScores = g1.highScores ∧ g2.gameOver = g1.gameOver

instance (g1 g2 : GameState) : Decidable (sameResult g1 g2) := by
  unfold sameResult
  infer_instance

/-- The player after the parachute handling of the player block, on which
`player.update(cursors)` is then called. -/
def keyedPlayer (g : GameState) (inp : Input) : Player :=
  if inp.spaceJustDown && !g.player.parachuteDeployed then g.player.deployParachute
  else g.player

/-- The keyboard with only the parachute key reported by `JustDown(parachuteKey)`. -/
def parachuteKey : Input := ⟨false, false, true, false⟩

/-- The player after one `update` per element of `keys`, with no
`deployParachute` in between. A `checkCollision` that returns `false` between
two updates leaves the player as it is. -/
def fall (p : Player) (keys : List Cursors) : Player :=
  keys.foldl Player.update p

/-- A player created by the constructor who has not yet left the plane: free-fall
settings, `velocityY = 1`, not landed. -/
def PreJump (p : Player) : Prop :=
  p.gravity = 2 / 10 ∧ p.maxSpeed = 7 ∧ p.height = 60 ∧ p.landed = false ∧ p.velocityY = 1

/-- A player in free fall after the jump from `y = 60`: free-fall settings, not
landed, `velocityY >= 1`, and as long as `velocityY <= 3` the player is not
lower than `y = 60 + 15 * (velocityY - 1)`, so at most at `y = 90`. -/
def FreeFall (p : Player) : Prop :=
  p.gravity = 2 / 10 ∧ p.maxSpeed = 7 ∧ p.height = 60 ∧ p.landed = false ∧
  1 ≤ p.velocityY ∧ (p.velocityY ≤ 3 → p.y ≤ 60 + 15 * (p.velocityY - 1))

/-- What holds of a game in which the parachute key is never reported, with `stored`
the high-score list at the start: no score, the stored list untouched, no
player that is both landed and alive, and, while the round is not over, a
player that is waiting in the plane or in free fall. -/
def NoChute (stored : List ℤ) (g : GameState) : Prop :=
  g.score = 0 ∧ g.highScores = stored ∧
  ¬ (g.player.landed = true ∧ g.player.alive = true) ∧
  (g.gameOver = false →
    g.plane.y + g.plane.height = 60 ∧
    (g.jumping = true → FreeFall g.player) ∧ (g.jumping = false → PreJump g.player))

/-- A round in which the player, 78 ticks into free fall, is at `y = 519` with
`velocityY = 7`, left of all obstacles, parachute not yet deployed. -/
def lastMoment : GameState :=
  { resetGame blankState crashDraws with
    jumping := true
    player := { Player.new 100 519 with velocityY := 7 } }

/-! ## Landing zones and obstacles -/

/-- C1 (defect in the code): `createLandingZones` places its zones in the gaps
between neighbours of the list sorted by `x` and does not look at the width of
earlier obstacles. For the obstacles generated from the draws
`nestedPositions`, `nestedSizes` (all within the ranges of `createObstacles`)
it returns the zone `[141, 240]`, which overlaps the span `[100, 180]` of the
first obstacle. -/
theorem createLandingZones_overlaps_obstacle :
    validObstacleDraws nestedPositions nestedSizes ∧
    Obstacle.new 100 80 40 ∈ createObstacles nestedPositions nestedSizes ∧
    ({ x := 141, y := 570, width := 99, height := 10 } : LandingZone) ∈
      createLandingZones (createObstacles nestedPositions nestedSizes) ∧
    (∃ zone ∈ createLandingZones (createObstacles nestedPositions nestedSizes),
      ∃ o ∈ createObstacles nestedPositions nestedSizes,
        0 < o.width ∧ zone.x < o.x + o.width ∧ o.x < zone.x + zone.width) := by
  decide!

/-! ## `Player.update`: screen bounds -/

theorem Player.updateHorizontal_landed (p : Player) (cursors : Cursors) :
    (p.updateHorizontal cursors).landed = p.landed := by
  unfold Player.updateHorizontal
  split_ifs <;> rfl

theorem Player.updateHorizontal_cap (p : Player) (cursors : Cursors) :
    (p.updateHorizontal cursors).velocityY = p.velocityY ∧
    (p.updateHorizontal cursors).maxSpeed = p.maxSpeed ∧
    (p.updateHorizontal cursors).gravity = p.gravity := by
  unfold Player.updateHorizontal
  split_ifs <;> exact ⟨rfl, rfl, rfl⟩

theorem Player.applyGravity_horizontal (p : Player) :
    p.applyGravity.x = p.x ∧ p.applyGravity.velocityX = p.velocityX ∧
    p.applyGravity.width = p.width := by
  unfold Player.applyGravity
  split_ifs <;> exact ⟨rfl, rfl, rfl⟩

theorem Player.updateHorizontal_width (p : Player) (cursors : Cursors) :
    (p.updateHorizontal cursors).width = p.width := by
  unfold Player.updateHorizontal
  split_ifs <;> rfl

/-- C2: after `Player.update` the player is inside the screen,
`0 <= x <= GAME_WIDTH - width`, and when the position before the bounds check
(`unclampedX`) was outside that interval the new `velocityX` is 0. The only
assumption is that the player is not wider than the screen; the constructor
sets `width = 40` and no method changes it. -/
theorem Player.update_x_within_screen (p : Player) (cursors : Cursors)
    (hw : p.width ≤ GAME_WIDTH) :
    0 ≤ (p.update cursors).x ∧
    (p.update cursors).x ≤ GAME_WIDTH - (p.update cursors).width ∧
    (p.unclampedX cursors < 0 ∨ p.unclampedX cursors > GAME_WIDTH - p.width →
      (p.update cursors).velocityX = 0) := by
  obtain ⟨hx, hv, hwd⟩ := (p.updateHorizontal cursors).applyGravity_horizontal
  unfold Player.update
  rw [hx, hv, hwd, Player.updateHorizontal_width]
  refine ⟨?_, ?_, fun h => ?_⟩
  · unfold Player.updateHorizontal
    split_ifs with h1 h2
    · exact le_refl _
    · show (0 : ℚ) ≤ GAME_WIDTH - p.width
      linarith
    · exact le_of_not_lt h1
  · unfold Player.updateHorizontal
    split_ifs with h1 h2
    · show (0 : ℚ) ≤ GAME_WIDTH - p.width
      linarith
    · exact le_refl _
    · exact le_of_not_lt h2
  · unfold Player.updateHorizontal
    split_ifs with h1 h2
    · rfl
    · rfl
    · rcases h with h | h
      · exact absurd h h1
      · exact absurd h h2

/-- Witness for C2: a new player at `x = 799` who steers right would move to
`799.2`, beyond `GAME_WIDTH - width = 760`, and is put back with `velocityX = 0`. -/
theorem Player.update_x_within_screen_witness :
    (Player.new 799 60).width ≤ GAME_WIDTH ∧
    (Player.new 799 60).unclampedX ⟨false, true⟩ > GAME_WIDTH - (Player.new 799 60).width ∧
    0 ≤ ((Player.new 799 60).update ⟨false, true⟩).x ∧
    ((Player.new 799 60).update ⟨false, true⟩).x ≤
      GAME_WIDTH - ((Player.new 799 60).update ⟨false, true⟩).width ∧
    ((Player.new 799 60).update ⟨false, true⟩).velocityX = 0 :=
  have h := Player.update_x_within_screen (Player.new 799 60) ⟨false, true⟩ (by decide!)
  ⟨by decide!, by decide!, h.1, h.2.1, h.2.2 (Or.inr (by decide!))⟩

/-! ## Fields touched by the `Player` methods -/

theorem Player.applyGravity_cap (p : Player) (h : p.velocityY ≤ p.maxSpeed) :
    p.applyGravity.velocityY ≤ p.applyGravity.maxSpeed := by
  unfold Player.applyGravity
  split_ifs
  · exact min_le_left _ _
  · exact h

theorem Player.applyGravity_cap_of_not_landed (p : Player) (h : p.landed = false) :
    p.applyGravity.velocityY ≤ p.applyGravity.maxSpeed := by
  unfold Player.applyGravity
  rw [h]
  exact min_le_left _ _

theorem Player.applyGravity_landed (p : Player) : p.applyGravity.landed = p.landed := by
  unfold Player.applyGravity
  split_ifs <;> rfl

theorem Player.update_landed (p : Player) (cursors : Cursors) :
    (p.update cursors).landed = p.landed := by
  unfold Player.update
  rw [Player.applyGravity_landed, Player.updateHorizontal_landed]

theorem Player.update_cap (p : Player) (cursors : Cursors) (h : p.velocityY ≤ p.maxSpeed) :
    (p.update cursors).velocityY ≤ (p.update cursors).maxSpeed := by
  unfold Player.update
  apply Player.applyGravity_cap
  obtain ⟨h1, h2, _⟩ := p.updateHorizontal_cap cursors
  rw [h1, h2]
  exact h

theorem Player.update_cap_of_not_landed (p : Player) (cursors : Cursors)
    (h : p.landed = false) :
    (p.update cursors).velocityY ≤ (p.update cursors).maxSpeed := by
  unfold Player.update
  apply Player.applyGravity_cap_of_not_landed
  rw [Player.updateHorizontal_landed]
  exact h

theorem Player.deployParachute_landed (p : Player) :
    p.deployParachute.landed = p.landed := by
  unfold Player.deployParachute
  split_ifs <;> rfl

theorem Player.checkCollision_cap (p : Player) (obstacles : List Obstacle) :
    (p.checkCollision obstacles).1.velocityY = p.velocityY ∧
    (p.checkCollision obstacles).1.maxSpeed = p.maxSpeed := by
  unfold Player.checkCollision
  split_ifs <;> exact ⟨rfl, rfl⟩

theorem Player.checkCollision_false (p : Player) (obstacles : List Obstacle)
    (h : (p.checkCollision obstacles).2 = false) :
    (p.checkCollision obstacles).1 = p := by
  unfold Player.checkCollision at h ⊢
  split_ifs at h ⊢
  rfl

theorem Player.checkCollision_of_hitsAny (p : Player) (obstacles : List Obstacle)
    (h : p.hitsAny obstacles = true) :
    p.checkCollision obstacles = ({ p with alive := false }, true) := by
  unfold Player.checkCollision
  rw [if_pos h]

theorem Player.hitsAny_iff (p : Player) (obstacles : List Obstacle) :
    p.hitsAny obstacles = true ↔ ∃ o ∈ obstacles, p.hits o = true := by
  induction obstacles with
  | nil => simp [Player.hitsAny]
  | cons o rest ih =>
    unfold Player.hitsAny
    by_cases h : p.hits o = true
    · simp [h]
    · simp [h, ih]

/-! ## The scene tick, stage by stage -/

theorem beforePlayer_frame (g : GameState) (d : Draws) :
    (beforePlayer g d).score = g.score ∧
    (beforePlayer g d).gameOver = g.gameOver ∧
    (beforePlayer g d).highScores = g.highScores ∧
    (beforePlayer g d).obstacles = g.obstacles ∧
    (beforePlayer g d).landingZones = g.landingZones := by
  unfold beforePlayer jumpCheck updateWind
  split_ifs <;> exact ⟨rfl, rfl, rfl, rfl, rfl⟩

theorem beforePlayer_player (g : GameState) (d : Draws) :
    (beforePlayer g d).player.velocityY = g.player.velocityY ∧
    (beforePlayer g d).player.maxSpeed = g.player.maxSpeed ∧
    (beforePlayer g d).player.landed = g.player.landed ∧
    (beforePlayer g d).player.alive = g.player.alive := by
  unfold beforePlayer jumpCheck updateWind
  split_ifs <;> exact ⟨rfl, rfl, rfl, rfl⟩

theorem updateHighScores_frame (g : GameState) (newScore : ℤ) :
    (updateHighScores g newScore).player = g.player ∧
    (updateHighScores g newScore).gameOver = g.gameOver ∧
    (updateHighScores g newScore).score = g.score := by
  unfold updateHighScores
  split_ifs <;> exact ⟨rfl, rfl, rfl⟩

theorem endRound_frame (g : GameState) :
    (endRound g).player = g.player ∧ (endRound g).gameOver = true := by
  unfold endRound
  simp only []
  split_ifs
  · obtain ⟨h1, h2, _⟩ := updateHighScores_frame
      { g with gameOver := true, score := calculateScore { g with gameOver := true } }
      (calculateScore { g with gameOver := true })
    exact ⟨h1, h2⟩
  · exact ⟨rfl, rfl⟩

theorem endRound_of_not_alive (g : GameState) (h : g.player.alive = false) :
    endRound g = { g with gameOver := true } := by
  unfold endRound
  simp [h]

theorem RoundInv_resetGame (g : GameState) (d : Draws) : RoundInv (resetGame g d) := by
  refine ⟨?_, fun _ => ⟨rfl, rfl⟩⟩
  show (1 : ℚ) ≤ 7
  norm_num

theorem RoundInv_beforePlayer (g : GameState) (d : Draws) (h : RoundInv g) :
    RoundInv (beforePlayer g d) := by
  obtain ⟨h1, h2, h3, _⟩ := beforePlayer_player g d
  obtain ⟨h4, h5, _⟩ := beforePlayer_frame g d
  unfold RoundInv
  rw [h1, h2, h3, h4, h5]
  exact h

theorem movedPlayer_landed (g : GameState) (inp : Input) :
    (movedPlayer g inp).landed = g.player.landed := by
  unfold movedPlayer
  rw [Player.update_landed]
  split_ifs
  · exact Player.deployParachute_landed _
  · rfl

theorem movedPlayer_cap (g : GameState) (inp : Input) (h : g.player.landed = false) :
    (movedPlayer g inp).velocityY ≤ (movedPlayer g inp).maxSpeed := by
  unfold movedPlayer
  apply Player.update_cap_of_not_landed
  split_ifs
  · rw [Player.deployParachute_landed]
    exact h
  · exact h

theorem RoundInv_playerStep (g : GameState) (inp : Input) (h : RoundInv g) :
    RoundInv (playerStep g inp) := by
  unfold playerStep
  split_ifs with hguard hhit
  · simp only [Bool.and_eq_true, Bool.not_eq_true'] at hguard
    have hl := (h.2 hguard.1.2).1
    obtain ⟨e1, e2⟩ := endRound_frame
      { g with player := ((movedPlayer g inp).checkCollision g.obstacles).1 }
    obtain ⟨c1, c2⟩ := (movedPlayer g inp).checkCollision_cap g.obstacles
    refine ⟨?_, fun hover => ?_⟩
    · rw [e1]
      show ((movedPlayer g inp).checkCollision g.obstacles).1.velocityY ≤
        ((movedPlayer g inp).checkCollision g.obstacles).1.maxSpeed
      rw [c1, c2]
      exact movedPlayer_cap g inp hl
    · rw [e2] at hover
      exact absurd hover (by decide)
  · simp only [Bool.and_eq_true, Bool.not_eq_true'] at hguard
    have hl := (h.2 hguard.1.2).1
    have hsame := (movedPlayer g inp).checkCollision_false g.obstacles
      (by simpa using hhit)
    refine ⟨?_, fun _ => ⟨?_, (h.2 hguard.1.2).2⟩⟩
    · show ((movedPlayer g inp).checkCollision g.obstacles).1.velocityY ≤
        ((movedPlayer g inp).checkCollision g.obstacles).1.maxSpeed
      rw [hsame]
      exact movedPlayer_cap g inp hl
    · show ((movedPlayer g inp).checkCollision g.obstacles).1.landed = false
      rw [hsame, movedPlayer_landed]
      exact hl
  · exact h

theorem RoundInv_handleRestart (g : GameState) (inp : Input) (d : Draws) (h : RoundInv g) :
    RoundInv (handleRestart g inp d) := by
  unfold handleRestart
  split_ifs
  · exact RoundInv_resetGame g d
  · exact h

theorem RoundInv_of_reachable (g : GameState) (h : Reachable g) : RoundInv g := by
  induction h with
  | reset g d => exact RoundInv_resetGame g d
  | tick inp d _ ih =>
    exact RoundInv_handleRestart _ inp d (RoundInv_playerStep _ inp (RoundInv_beforePlayer _ d ih))

/-! ## The speed cap -/

/-- C3, counterexample to the claim as stated: `deployParachute` does not
preserve `velocityY <= maxSpeed`. Six ticks after the jump the player falls at
2.2 under the cap 7; `deployParachute` lowers the cap to 2 and leaves
`velocityY` at 2.2. -/
theorem Player.deployParachute_breaks_cap :
    sixTicksDown.velocityY = 11 / 5 ∧ sixTicksDown.maxSpeed = 7 ∧
    sixTicksDown.velocityY ≤ sixTicksDown.maxSpeed ∧
    sixTicksDown.deployParachute.velocityY = 11 / 5 ∧
    sixTicksDown.deployParachute.maxSpeed = 2 ∧
    ¬ (sixTicksDown.deployParachute.velocityY ≤ sixTicksDown.deployParachute.maxSpeed) := by
  decide!

/-- C3, amended: `velocityY <= maxSpeed` holds for a new player and is
preserved by `update` and by `checkCollision`; `deployParachute` preserves it
when `velocityY <= 2`, and in any case the `update` that follows it
re-establishes it for a player that has not landed; so it holds in every round
state reachable from `resetGame` by scene ticks. -/
theorem velocityY_within_cap :
    (∀ x y : ℚ, (Player.new x y).velocityY ≤ (Player.new x y).maxSpeed) ∧
    (∀ (p : Player) (cursors : Cursors), p.velocityY ≤ p.maxSpeed →
      (p.update cursors).velocityY ≤ (p.update cursors).maxSpeed) ∧
    (∀ (p : Player) (obstacles : List Obstacle), p.velocityY ≤ p.maxSpeed →
      (p.checkCollision obstacles).1.velocityY ≤ (p.checkCollision obstacles).1.maxSpeed) ∧
    (∀ p : Player, p.velocityY ≤ p.maxSpeed → p.velocityY ≤ 2 →
      p.deployParachute.velocityY ≤ p.deployParachute.maxSpeed) ∧
    (∀ (p : Player) (cursors : Cursors), p.landed = false →
      (p.deployParachute.update cursors).velocityY ≤
        (p.deployParachute.update cursors).maxSpeed) ∧
    (∀ g : GameState, Reachable g → g.player.velocityY ≤ g.player.maxSpeed) := by
  refine ⟨fun x y => ?_, fun p c h => p.update_cap c h, fun p obstacles h => ?_,
    fun p h h2 => ?_, fun p c h => ?_, fun g h => (RoundInv_of_reachable g h).1⟩
  · show (1 : ℚ) ≤ 7
    norm_num
  · obtain ⟨c1, c2⟩ := p.checkCollision_cap obstacles
    rw [c1, c2]
    exact h
  · unfold Player.deployParachute
    split_ifs
    · exact h2
    · exact h
  · apply Player.update_cap_of_not_landed
    rw [Player.deployParachute_landed]
    exact h

/-- Witness for C3 (amended): every part applied to the player six ticks after
the jump, and the reachable-state part to the state after the first tick. -/
theorem velocityY_within_cap_witness :
    (sixTicksDown.update ⟨true, false⟩).velocityY ≤ (sixTicksDown.update ⟨true, false⟩).maxSpeed ∧
    (sixTicksDown.checkCollision []).1.velocityY ≤ (sixTicksDown.checkCollision []).1.maxSpeed ∧
    (Player.new 268 60).deployParachute.velocityY ≤ (Player.new 268 60).deployParachute.maxSpeed ∧
    (sixTicksDown.deployParachute.update ⟨true, false⟩).velocityY ≤
      (sixTicksDown.deployParachute.update ⟨true, false⟩).maxSpeed ∧
    (update (resetGame blankState ⟨200, 1 / 2, nestedPositions, nestedSizes⟩) noKeys
        ⟨200, 1 / 2, nestedPositions, nestedSizes⟩).player.velocityY ≤
      (update (resetGame blankState ⟨200, 1 / 2, nestedPositions, nestedSizes⟩) noKeys
        ⟨200, 1 / 2, nestedPositions, nestedSizes⟩).player.maxSpeed :=
  ⟨velocityY_within_cap.2.1 sixTicksDown ⟨true, false⟩ (by decide!),
   velocityY_within_cap.2.2.1 sixTicksDown [] (by decide!),
   velocityY_within_cap.2.2.2.1 (Player.new 268 60) (by decide!) (by decide!),
   velocityY_within_cap.2.2.2.2.1 sixTicksDown ⟨true, false⟩ (by decide!),
   velocityY_within_cap.2.2.2.2.2 _ (Reachable.tick _ _ (Reachable.reset _ _))⟩

/-! ## Parachute deployment -/

/-- C4: `deployParachute` is idempotent, and on a player whose parachute is
already deployed it changes no field (whatever the player's current `y`). -/
theorem Player.deployParachute_idempotent (p : Player) :
    p.deployParachute.deployParachute = p.deployParachute ∧
    (p.parachuteDeployed = true → p.deployParachute = p) := by
  constructor
  · unfold Player.deployParachute
    split_ifs <;> rfl
  · intro h
    unfold Player.deployParachute
    rw [h]
    rfl

/-- Witness for C4: a player who deployed at `y = 60` and has since fallen to
`y = 300` keeps `parachuteDeployHeight = 60` on a second `deployParachute`. -/
theorem Player.deployParachute_idempotent_witness :
    ({ (Player.new 268 60).deployParachute with y := 300 } : Player).parachuteDeployed = true ∧
    ({ (Player.new 268 60).deployParachute with y := 300 } : Player).deployParachute =
      { (Player.new 268 60).deployParachute with y := 300 } ∧
    ({ (Player.new 268 60).deployParachute with y := 300 } : Player).deployParachute.parachuteDeployHeight
      = 60 :=
  have h := (Player.deployParachute_idempotent
    { (Player.new 268 60).deployParachute with y := 300 }).2 (by decide!)
  ⟨by decide!, h, by rw [h]; decide!⟩

/-! ## Ground contact -/

/-- C5, counterexample to the claim as stated: `slowIntoObstacle` has its feet
below `GROUND_Y` (581 >= 580) and `velocityY = 2 <= 3`, but it overlaps the
obstacle at `x = 300`; `checkCollision` tests obstacles first, so the player
is not alive afterwards and `landed` stays false. -/
theorem Player.checkCollision_slow_ground_contact_crashes :
    slowIntoObstacle.y + slowIntoObstacle.height ≥ GROUND_Y ∧
    slowIntoObstacle.velocityY ≤ 3 ∧
    slowIntoObstacle.alive = true ∧
    (slowIntoObstacle.checkCollision [Obstacle.new 300 50 100]).1.alive = false ∧
    (slowIntoObstacle.checkCollision [Obstacle.new 300 50 100]).1.landed = false := by
  decide!

/-- C5, amended: when `checkCollision` is called with the player's bottom at or
below the ground, `velocityY > 3` gives a crash (`alive = false`) for every
obstacle list, and `velocityY <= 3` gives a landing (`landed = true`, `alive`
unchanged, `y = GROUND_Y - height`) when the player overlaps no obstacle; with
an overlap the result is a crash whatever `velocityY` is. The call returns
`true` in all these cases. -/
theorem Player.checkCollision_ground_contact (p : Player) (obstacles : List Obstacle)
    (hground : p.y + p.height ≥ GROUND_Y) :
    (p.checkCollision obstacles).2 = true ∧
    (p.velocityY > 3 → (p.checkCollision obstacles).1.alive = false) ∧
    (p.velocityY ≤ 3 → p.hitsAny obstacles = false →
      (p.checkCollision obstacles).1.landed = true ∧
      (p.checkCollision obstacles).1.alive = p.alive ∧
      (p.checkCollision obstacles).1.y = GROUND_Y - p.height) ∧
    (p.hitsAny obstacles = true → (p.checkCollision obstacles).1.alive = false) := by
  refine ⟨?_, fun hfast => ?_, fun hslow hnone => ?_, fun hhit => ?_⟩
  · unfold Player.checkCollision
    split_ifs <;> rfl
  · unfold Player.checkCollision
    split_ifs <;> rfl
  · unfold Player.checkCollision
    rw [hnone, if_pos hground, if_neg (not_lt.mpr hslow)]
    exact ⟨rfl, rfl, rfl⟩
  · rw [Player.checkCollision_of_hitsAny p obstacles hhit]

/-- Witness for C5 (amended): the slow player of the counterexample lands when
the obstacle is out of reach (at `x = 400`) and crashes on the obstacle at
`x = 300`; the same player falling at 4 crashes on the ground. -/
theorem Player.checkCollision_ground_contact_witness :
    ((slowIntoObstacle.checkCollision [Obstacle.new 400 50 100]).1.landed = true ∧
      (slowIntoObstacle.checkCollision [Obstacle.new 400 50 100]).1.alive =
        slowIntoObstacle.alive ∧
      (slowIntoObstacle.checkCollision [Obstacle.new 400 50 100]).1.y =
        GROUND_Y - slowIntoObstacle.height) ∧
    (slowIntoObstacle.checkCollision [Obstacle.new 300 50 100]).1.alive = false ∧
    (({ slowIntoObstacle with velocityY := 4 } : Player).checkCollision
      [Obstacle.new 400 50 100]).1.alive = false :=
  ⟨(Player.checkCollision_ground_contact slowIntoObstacle [Obstacle.new 400 50 100]
      (by decide!)).2.2.1 (by decide!) (by decide!),
   (Player.checkCollision_ground_contact slowIntoObstacle [Obstacle.new 300 50 100]
      (by decide!)).2.2.2 (by decide!),
   (Player.checkCollision_ground_contact { slowIntoObstacle with velocityY := 4 }
      [Obstacle.new 400 50 100] (by decide!)).2.1 (by decide!)⟩

/-! ## Score -/

theorem addZoneBonus_eq (playerCenterX landingScore : ℚ) (zones : List LandingZone) :
    addZoneBonus playerCenterX landingScore zones =
      landingScore +
        (if ∃ zone ∈ zones, zone.x ≤ playerCenterX ∧ playerCenterX ≤ zone.x + zone.width
          then 500 else 0) := by
  induction zones with
  | nil => simp [addZoneBonus]
  | cons zone rest ih =>
    unfold addZoneBonus
    by_cases h : playerCenterX ≥ zone.x ∧ playerCenterX ≤ zone.x + zone.width
    · have hex : ∃ z ∈ zone :: rest, z.x ≤ playerCenterX ∧ playerCenterX ≤ z.x + z.width :=
        ⟨zone, List.mem_cons_self _ _, h⟩
      rw [if_pos h, if_pos hex]
    · rw [if_neg h, ih]
      by_cases hr : ∃ z ∈ rest, z.x ≤ playerCenterX ∧ playerCenterX ≤ z.x + z.width
      · have hex : ∃ z ∈ zone :: rest, z.x ≤ playerCenterX ∧ playerCenterX ≤ z.x + z.width := by
          obtain ⟨z, hz, hin⟩ := hr
          exact ⟨z, List.mem_cons_of_mem _ hz, hin⟩
        rw [if_pos hr, if_pos hex]
      · have hex : ¬ ∃ z ∈ zone :: rest, z.x ≤ playerCenterX ∧ playerCenterX ≤ z.x + z.width := by
          rintro ⟨z, hz, hin⟩
          rcases List.mem_cons.mp hz with rfl | hz
          · exact h hin
          · exact hr ⟨z, hz, hin⟩
        rw [if_neg hr, if_neg hex]

/-- C6 (defect in the code): `calculateScore` measures each obstacle distance
from the player's left edge `player.x`, not from the player's centre
`player.x + player.width / 2` that the same function uses for the landing-zone
test. In `landedRound 150` (five obstacles) it returns 1320 where the formula
of the claim (`centreDistanceScore`) gives 1332, and in scenario A it returns
1543, not 1550. -/
theorem calculateScore_measures_from_left_edge :
    validObstacleDraws fivePositions fiveSizes ∧
    (landedRound 150).player.alive = true ∧
    calculateScore (landedRound 150) = 1320 ∧
    centreDistanceScore (landedRound 150) = 1332 ∧
    (∀ o ∈ scenarioA.obstacles,
      |(scenarioA.player.x + scenarioA.player.width / 2) - (o.x + o.width / 2)| = 100) ∧
    calculateScore scenarioA = 1543 ∧
    centreDistanceScore scenarioA = 1550 := by
  decide!

/-- C7: `calculateScore` returns an integer that is never negative, and it
depends on the round state only through the player, the obstacles and the
landing zones: two states that agree on these three give the same score. The
obstacle list may be empty. -/
theorem calculateScore_nonneg_and_determined (g g2 : GameState)
    (hplayer : g.player = g2.player) (hobstacles : g.obstacles = g2.obstacles)
    (hzones : g.landingZones = g2.landingZones) :
    0 ≤ calculateScore g ∧ calculateScore g = calculateScore g2 := by
  constructor
  · unfold calculateScore
    split_ifs
    · exact le_refl _
    · exact le_max_left _ _
  · unfold calculateScore landingBase timeBonus
    rw [hplayer, hobstacles, hzones]

/-- Witness for C7: a finished round without obstacles scores 1550, and so does
the same round with another stored score, wind and high-score list. -/
theorem calculateScore_nonneg_and_determined_witness :
    twoZonesRound.obstacles = [] ∧
    0 ≤ calculateScore twoZonesRound ∧
    calculateScore twoZonesRound =
      calculateScore { twoZonesRound with
        score := 7, windDirection := 1 / 2, windTimer := 99, highScores := [3, 2, 1] } :=
  ⟨rfl, calculateScore_nonneg_and_determined twoZonesRound
    { twoZonesRound with
      score := 7, windDirection := 1 / 2, windTimer := 99, highScores := [3, 2, 1] }
    rfl rfl rfl⟩

/-- C8: for an alive player the landing-zone bonus inside `calculateScore` is
exactly 500 when the player's centre `x + width / 2` lies in the closed interval
`[zone.x, zone.x + zone.width]` of at least one landing zone, and exactly 0
otherwise; several zones containing the centre still give 500 once. -/
theorem calculateScore_zone_bonus (g : GameState) (halive : g.player.alive = true) :
    calculateScore g =
      max 0 ⌊landingBase g
        + (if ∃ zone ∈ g.landingZones, zone.x ≤ g.player.x + g.player.width / 2 ∧
              g.player.x + g.player.width / 2 ≤ zone.x + zone.width then 500 else 0)
        + timeBonus g⌋ := by
  unfold calculateScore
  rw [halive, addZoneBonus_eq]
  rfl

/-- Witness for C8: in `twoZonesRound` both zones `[350, 450]` and `[390, 490]`
contain the player's centre 400; the score is 1000 + 500 + 50, one bonus. -/
theorem calculateScore_zone_bonus_witness :
    (∀ zone ∈ twoZonesRound.landingZones,
      zone.x ≤ twoZonesRound.player.x + twoZonesRound.player.width / 2 ∧
      twoZonesRound.player.x + twoZonesRound.player.width / 2 ≤ zone.x + zone.width) ∧
    landingBase twoZonesRound = 1000 ∧ timeBonus twoZonesRound = 50 ∧
    calculateScore twoZonesRound = 1550 ∧
    calculateScore twoZonesRound =
      max 0 ⌊landingBase twoZonesRound
        + (if ∃ zone ∈ twoZonesRound.landingZones,
              zone.x ≤ twoZonesRound.player.x + twoZonesRound.player.width / 2 ∧
              twoZonesRound.player.x + twoZonesRound.player.width / 2 ≤ zone.x + zone.width
            then 500 else 0)
        + timeBonus twoZonesRound⌋ :=
  ⟨by decide!, by decide!, by decide!, by decide!,
    calculateScore_zone_bonus twoZonesRound (by decide!)⟩

/-- C9 (defect in the code): the comment in `calculateScore` says the bonus is
for deploying the parachute later, but `max(0, 200 - parachuteDeployHeight)`
with `parachuteDeployHeight = y` at deployment (y grows downward) shrinks as
the deployment gets later. Two finished rounds that differ only in the
recorded `y`: deployed at `y = 60` (right after the jump) the score is 1410,
deployed later at `y = 150` it is 1320. -/
theorem calculateScore_later_deployment_scores_less :
    (landedRound 60).player.alive = true ∧ (landedRound 150).player.alive = true ∧
    landedRound 150 =
      { landedRound 60 with
        player := { (landedRound 60).player with parachuteDeployHeight := 150 } } ∧
    calculateScore (landedRound 60) = 1410 ∧
    calculateScore (landedRound 150) = 1320 ∧
    calculateScore (landedRound 150) < calculateScore (landedRound 60) := by
  decide!

/-! ## Crashes -/

theorem reachable_run (g : GameState) (steps : List (Input × Draws)) (h : Reachable g) :
    Reachable (run g steps) := by
  induction steps generalizing g with
  | nil => exact h
  | cons step rest ih => exact ih _ (Reachable.tick step.1 step.2 h)

theorem playerStep_of_hit (g : GameState) (inp : Input)
    (hjump : g.jumping = true) (hover : g.gameOver = false) (halive : g.player.alive = true)
    (hhit : (movedPlayer g inp).hitsAny g.obstacles = true) :
    playerStep g inp =
      { g with player := { movedPlayer g inp with alive := false }, gameOver := true } := by
  unfold playerStep
  rw [hjump, hover, halive, Player.checkCollision_of_hitsAny _ _ hhit]
  simp only [Bool.not_false, Bool.and_self, if_true]
  rw [endRound_of_not_alive _ rfl]

theorem handleRestart_of_over (g : GameState) (inp : Input) (d : Draws)
    (h : g.gameOver = true) :
    handleRestart g inp d = if inp.rJustDown = true then resetGame g d else g := by
  unfold handleRestart
  rw [h, Bool.true_and]

/-- C10, counterexample to the claim as stated: the restart handling runs in the
same scene `update` as the collision check. In the reachable round
`beforeCrash` the player is alive and falling; in the next tick the updated
player overlaps the obstacle at `x = 268`, and if `JustDown(rKey)` reports a
press, that same tick already ends in the fresh round: `gameOver = false` and a
new player with `alive = true`. -/
theorem update_crash_with_restart_starts_new_round :
    validObstacleDraws crashDraws.positions crashDraws.sizes ∧
    Reachable beforeCrash ∧
    (beforePlayer beforeCrash crashDraws).jumping = true ∧
    (beforePlayer beforeCrash crashDraws).gameOver = false ∧
    (beforePlayer beforeCrash crashDraws).player.alive = true ∧
    (∃ o ∈ (beforePlayer beforeCrash crashDraws).obstacles,
      (movedPlayer (beforePlayer beforeCrash crashDraws) restartKey).hits o = true) ∧
    (update beforeCrash restartKey crashDraws).gameOver = false ∧
    (update beforeCrash restartKey crashDraws).player.alive = true := by
  refine ⟨by decide!, reachable_run _ _ (Reachable.reset _ _), by decide!, by decide!,
    by decide!, by decide!, by decide!, by decide!⟩

/-- C10, amended: a crash scores 0 and is never recorded. For every round state
whose player is not alive, `calculateScore` returns 0 and `updateHighScores`
changes nothing. In a scene tick of a reachable round in which the player is
updated and the updated player overlaps an obstacle, the tick ends with score 0
and the high-score list unchanged; unless the restart key is reported in that
same tick, the round is over after it (`gameOver = true`, `alive = false`,
`calculateScore` gives 0). With the restart key reported, the tick ends in the
fresh round of `resetGame` instead. -/
theorem crash_scores_nothing :
    (∀ (g : GameState) (newScore : ℤ), g.player.alive = false →
      calculateScore g = 0 ∧ updateHighScores g newScore = g) ∧
    (∀ (g : GameState) (inp : Input) (d : Draws), Reachable g →
      (beforePlayer g d).jumping = true → g.gameOver = false → g.player.alive = true →
      (∃ o ∈ g.obstacles, (movedPlayer (beforePlayer g d) inp).hits o = true) →
      (update g inp d).score = 0 ∧ (update g inp d).highScores = g.highScores ∧
      (inp.rJustDown = false →
        (update g inp d).gameOver = true ∧ (update g inp d).player.alive = false ∧
        calculateScore (update g inp d) = 0) ∧
      (inp.rJustDown = true →
        (update g inp d).gameOver = false ∧
        (update g inp d).player = Player.new (GAME_WIDTH / 2) 50)) := by
  constructor
  · intro g newScore hdead
    constructor
    · unfold calculateScore
      rw [hdead]
      rfl
    · unfold updateHighScores
      rw [hdead]
      rfl
  · intro g inp d hreach hjump hover halive hhit
    obtain ⟨f1, f2, f3, f4, _⟩ := beforePlayer_frame g d
    obtain ⟨_, _, _, p4⟩ := beforePlayer_player g d
    have hscore : g.score = 0 := ((RoundInv_of_reachable g hreach).2 hover).2
    have hany : (movedPlayer (beforePlayer g d) inp).hitsAny (beforePlayer g d).obstacles
        = true := by
      rw [f4]
      exact (Player.hitsAny_iff _ _).mpr hhit
    have hstep := playerStep_of_hit (beforePlayer g d) inp hjump (f2.trans hover)
      (p4.trans halive) hany
    unfold update
    rw [hstep, handleRestart_of_over _ _ _ rfl]
    cases inp.rJustDown
    · rw [if_neg (by decide)]
      refine ⟨f1.trans hscore, f3, fun _ => ⟨rfl, rfl, ?_⟩, fun h => absurd h (by decide)⟩
      unfold calculateScore
      rfl
    · rw [if_pos rfl]
      exact ⟨rfl, f3, fun h => absurd h (by decide), fun _ => ⟨rfl, rfl⟩⟩

/-- Witness for C10 (amended): the tick after `beforeCrash` without the restart
key ends the round with `alive = false`, score 0 and the (empty) high-score
list unchanged; a dead player's score is 0 and is not stored. -/
theorem crash_scores_nothing_witness :
    (calculateScore (update beforeCrash noKeys crashDraws) = 0 ∧
      updateHighScores (update beforeCrash noKeys crashDraws) 5 =
        update beforeCrash noKeys crashDraws) ∧
    (update beforeCrash noKeys crashDraws).score = 0 ∧
    (update beforeCrash noKeys crashDraws).highScores = beforeCrash.highScores ∧
    (update beforeCrash noKeys crashDraws).gameOver = true ∧
    (update beforeCrash noKeys crashDraws).player.alive = false ∧
    calculateScore (update beforeCrash noKeys crashDraws) = 0 :=
  have h := crash_scores_nothing.2 beforeCrash noKeys crashDraws
    (reachable_run _ _ (Reachable.reset _ _)) (by decide!) (by decide!) (by decide!)
    (by decide!)
  ⟨crash_scores_nothing.1 (update beforeCrash noKeys crashDraws) 5 (h.2.2.1 rfl).2.1,
    h.1, h.2.1, h.2.2.1 rfl⟩

/-! ## High scores -/

theorem sorted_descending_insertionSort (l : List ℤ) :
    List.Pairwise (fun a b => b ≤ a) (l.insertionSort (fun a b => b ≤ a)) := by
  haveI : IsTotal ℤ (fun a b => b ≤ a) := ⟨fun a b => le_total b a⟩
  haveI : IsTrans ℤ (fun a b => b ≤ a) := ⟨fun _ _ _ hab hbc => le_trans hbc hab⟩
  exact List.sorted_insertionSort (fun a b => b ≤ a) l

/-- C11: with the player alive, `updateHighScores` leaves a list that is sorted
in descending order, has `min(10, old length + 1)` entries (so at most 10), and
consists of the largest values of the old list together with the new score,
with multiplicity: adding back the `dropped` entries gives a permutation of the
old list plus the new score, and no dropped entry is larger than a kept one. -/
theorem updateHighScores_keeps_top_ten (g : GameState) (newScore : ℤ)
    (halive : g.player.alive = true) :
    List.Pairwise (fun a b => b ≤ a) (updateHighScores g newScore).highScores ∧
    (updateHighScores g newScore).highScores.length ≤ 10 ∧
    (updateHighScores g newScore).highScores.length = min 10 (g.highScores.length + 1) ∧
    ∃ dropped : List ℤ,
      ((updateHighScores g newScore).highScores ++ dropped).Perm (g.highScores ++ [newScore]) ∧
      ∀ a ∈ (updateHighScores g newScore).highScores, ∀ b ∈ dropped, b ≤ a := by
  have hs := sorted_descending_insertionSort (g.highScores ++ [newScore])
  have hval : (updateHighScores g newScore).highScores =
      ((g.highScores ++ [newScore]).insertionSort (fun a b => b ≤ a)).take 10 := by
    unfold updateHighScores
    rw [if_pos halive]
  rw [hval]
  refine ⟨hs.sublist (List.take_sublist _ _), ?_, ?_,
    ((g.highScores ++ [newScore]).insertionSort (fun a b => b ≤ a)).drop 10, ?_, ?_⟩
  · rw [List.length_take]
    exact min_le_left _ _
  · rw [List.length_take, List.length_insertionSort, List.length_append, List.length_singleton]
  · rw [List.take_append_drop]
    exact List.perm_insertionSort _ _
  · rw [← List.take_append_drop 10
      ((g.highScores ++ [newScore]).insertionSort (fun a b => b ≤ a))] at hs
    exact (List.pairwise_append.mp hs).2.2

/-- Witness for C11: eleven stored scores and the new score 700 leave the ten
largest of the twelve values, in descending order; both entries 30 are kept. -/
theorem updateHighScores_keeps_top_ten_witness :
    (updateHighScores elevenScores 700).highScores =
      [1500, 1200, 900, 700, 640, 410, 88, 30, 30, 7] ∧
    List.Pairwise (fun a b => b ≤ a) (updateHighScores elevenScores 700).highScores ∧
    (updateHighScores elevenScores 700).highScores.length ≤ 10 :=
  have h := updateHighScores_keeps_top_ten elevenScores 700 (by decide!)
  ⟨by decide!, h.1, h.2.1⟩

/-! ## Restart -/

theorem playerStep_of_over (g : GameState) (inp : Input) (h : g.gameOver = true) :
    playerStep g inp = g := by
  unfold playerStep
  rw [h]
  simp

theorem handleRestart_of_not_over (g : GameState) (inp : Input) (d : Draws)
    (h : g.gameOver = false) : handleRestart g inp d = g := by
  unfold handleRestart
  rw [h]
  simp

theorem playerStep_ignores_restartKey (g : GameState) (inp : Input) (r : Bool) :
    playerStep g { inp with rJustDown := r } = playerStep g inp := by
  rfl

/-- C12, counterexample to the claim as stated: the restart key is only looked
at when `gameOver` is true. In the reachable round `midAir` the player is alive
and falling; a tick in which `JustDown(rKey)` would report a press does exactly
what the tick without the key does: `jumping` stays true, the player keeps
falling (to `y = 103.2`) and the obstacles stay. -/
theorem update_restart_ignored_mid_air :
    Reachable midAir ∧ midAir.gameOver = false ∧ midAir.jumping = true ∧
    midAir.player.alive = true ∧ midAir.player.landed = false ∧
    midAir.player.y + midAir.player.height < GROUND_Y ∧
    update midAir restartKey crashDraws = update midAir noKeys crashDraws ∧
    (update midAir restartKey crashDraws).jumping = true ∧
    (update midAir restartKey crashDraws).player.y = 516 / 5 ∧
    (update midAir restartKey crashDraws).player ≠ Player.new (GAME_WIDTH / 2) 50 := by
  refine ⟨reachable_run _ _ (Reachable.reset _ _), by decide!, by decide!, by decide!,
    by decide!, by decide!, by decide!, by decide!, by decide!, by decide!⟩

/-- C12, amended: a restart is accepted when the round is over. From every round
state with `gameOver = true`, a scene tick in which the restart key is reported
runs `resetGame`: afterwards the score is 0, `gameOver` and `jumping` are
false, the player is the new player of the constructor (alive, not landed, no
parachute), the plane is new, the wind is reset, obstacles and landing zones
are newly generated from the draws of this tick, and the high-score list is
kept. While the round is not over after the player block, the restart key has
no effect on the tick. -/
theorem update_restart_when_over :
    (∀ (g : GameState) (inp : Input) (d : Draws),
      g.gameOver = true → inp.rJustDown = true →
      (update g inp d).score = 0 ∧ (update g inp d).gameOver = false ∧
      (update g inp d).jumping = false ∧
      (update g inp d).player = Player.new (GAME_WIDTH / 2) 50 ∧
      (update g inp d).player.alive = true ∧ (update g inp d).player.landed = false ∧
      (update g inp d).player.parachuteDeployed = false ∧
      (update g inp d).plane = Plane.new ∧
      (update g inp d).windDirection = 0 ∧ (update g inp d).windTimer = 0 ∧
      (update g inp d).obstacles = createObstacles d.positions d.sizes ∧
      (update g inp d).landingZones =
        createLandingZones (createObstacles d.positions d.sizes) ∧
      (update g inp d).highScores = g.highScores) ∧
    (∀ (g : GameState) (inp : Input) (d : Draws),
      (playerStep (beforePlayer g d) inp).gameOver = false →
      update g inp d = playerStep (beforePlayer g d) inp ∧
      update g { inp with rJustDown := true } d = update g { inp with rJustDown := false } d) := by
  constructor
  · intro g inp d hover hr
    obtain ⟨_, f2, f3, _, _⟩ := beforePlayer_frame g d
    have hb : (beforePlayer g d).gameOver = true := f2.trans hover
    have hu : update g inp d = resetGame (beforePlayer g d) d := by
      unfold update
      rw [playerStep_of_over _ _ hb, handleRestart_of_over _ _ _ hb, if_pos hr]
    rw [hu]
    exact ⟨rfl, rfl, rfl, rfl, rfl, rfl, rfl, rfl, rfl, rfl, rfl, rfl, f3⟩
  · intro g inp d hnot
    refine ⟨?_, ?_⟩
    · unfold update
      exact handleRestart_of_not_over _ _ _ hnot
    · have h1 : (playerStep (beforePlayer g d) { inp with rJustDown := true }).gameOver
          = false := hnot
      have h2 : (playerStep (beforePlayer g d) { inp with rJustDown := false }).gameOver
          = false := hnot
      unfold update
      rw [handleRestart_of_not_over _ _ _ h1, handleRestart_of_not_over _ _ _ h2]
      rfl

/-- Witness for C12 (amended): the tick after the crash of `beforeCrash` ends the
round; a further tick with the restart key gives the new round, and in `midAir`
the key changes nothing. -/
theorem update_restart_when_over_witness :
    (update (update beforeCrash noKeys crashDraws) restartKey crashDraws).gameOver = false ∧
    (update (update beforeCrash noKeys crashDraws) restartKey crashDraws).player =
      Player.new (GAME_WIDTH / 2) 50 ∧
    (update (update beforeCrash noKeys crashDraws) restartKey crashDraws).obstacles =
      createObstacles crashDraws.positions crashDraws.sizes ∧
    update midAir noKeys crashDraws = playerStep (beforePlayer midAir crashDraws) noKeys :=
  have h := update_restart_when_over.1 (update beforeCrash noKeys crashDraws) restartKey
    crashDraws (by decide!) rfl
  ⟨h.2.1, h.2.2.2.1, h.2.2.2.2.2.2.2.2.2.2.1,
    (update_restart_when_over.2 midAir noKeys crashDraws (by decide!)).1⟩

/-! ## Wind -/

theorem updateWind_resample (g : GameState) (d : Draws) (h : g.windTimer - 1 ≤ 0) :
    (updateWind g d).windTimer = d.windTimer ∧
    (updateWind g d).windDirection = d.windDirection := by
  unfold updateWind
  rw [if_pos h]
  exact ⟨rfl, rfl⟩

theorem updateWind_count (g : GameState) (d : Draws) (h : 0 < g.windTimer - 1) :
    (updateWind g d).windTimer = g.windTimer - 1 ∧
    (updateWind g d).windDirection = g.windDirection := by
  unfold updateWind
  rw [if_neg (not_le.mpr h)]
  exact ⟨rfl, rfl⟩

theorem windRun_cons (g : GameState) (d : Draws) (ds : List Draws) :
    windRun g (d :: ds) = windRun (updateWind g d) ds := rfl

theorem windRun_hold (ds : List Draws) :
    ∀ g : GameState, (ds.length : ℤ) < g.windTimer →
      (windRun g ds).windDirection = g.windDirection ∧
      (windRun g ds).windTimer = g.windTimer - ds.length := by
  induction ds with
  | nil =>
    intro g _
    exact ⟨rfl, by simp [windRun]⟩
  | cons d ds ih =>
    intro g h
    rw [List.length_cons, Nat.cast_succ] at h
    obtain ⟨t, w⟩ := updateWind_count g d (by linarith [Int.natCast_nonneg ds.length])
    obtain ⟨h1, h2⟩ := ih (updateWind g d) (by rw [t]; linarith)
    rw [windRun_cons, h1, h2, w, t, List.length_cons, Nat.cast_succ]
    exact ⟨rfl, by ring⟩

theorem updateWind_direction_range (g : GameState) (d : Draws)
    (hg : -1 ≤ g.windDirection ∧ g.windDirection ≤ 1)
    (hd : -1 ≤ d.windDirection ∧ d.windDirection ≤ 1) :
    -1 ≤ (updateWind g d).windDirection ∧ (updateWind g d).windDirection ≤ 1 := by
  unfold updateWind
  split_ifs
  · exact hd
  · exact hg

theorem windRun_direction_range (ds : List Draws) :
    ∀ g : GameState, (-1 ≤ g.windDirection ∧ g.windDirection ≤ 1) →
      (∀ d ∈ ds, -1 ≤ d.windDirection ∧ d.windDirection ≤ 1) →
      -1 ≤ (windRun g ds).windDirection ∧ (windRun g ds).windDirection ≤ 1 := by
  induction ds with
  | nil =>
    intro g hg _
    exact hg
  | cons d ds ih =>
    intro g hg hds
    rw [windRun_cons]
    exact ih _ (updateWind_direction_range g d hg (hds d (List.mem_cons_self _ _)))
      (fun e he => hds e (List.mem_cons_of_mem _ he))

theorem playerStep_wind (g : GameState) (inp : Input) :
    (playerStep g inp).windDirection = g.windDirection ∧
    (playerStep g inp).windTimer = g.windTimer := by
  unfold playerStep endRound updateHighScores
  simp only []
  split_ifs <;> exact ⟨rfl, rfl⟩

theorem beforePlayer_wind (g : GameState) (d : Draws) :
    (beforePlayer g d).windDirection = (updateWind g d).windDirection ∧
    (beforePlayer g d).windTimer = (updateWind g d).windTimer := by
  unfold beforePlayer jumpCheck
  split_ifs <;> exact ⟨rfl, rfl⟩

theorem update_direction_range (g : GameState) (inp : Input) (d : Draws)
    (hg : -1 ≤ g.windDirection ∧ g.windDirection ≤ 1)
    (hd : -1 ≤ d.windDirection ∧ d.windDirection ≤ 1) :
    -1 ≤ (update g inp d).windDirection ∧ (update g inp d).windDirection ≤ 1 := by
  unfold update handleRestart
  split_ifs
  · show (-1 : ℚ) ≤ 0 ∧ (0 : ℚ) ≤ 1
    norm_num
  · rw [(playerStep_wind _ _).1, (beforePlayer_wind _ _).1]
    exact updateWind_direction_range g d hg hd

theorem run_cons (g : GameState) (step : Input × Draws) (steps : List (Input × Draws)) :
    run g (step :: steps) = run (update g step.1 step.2) steps := rfl

theorem run_direction_range (steps : List (Input × Draws)) :
    ∀ g : GameState, (-1 ≤ g.windDirection ∧ g.windDirection ≤ 1) →
      (∀ step ∈ steps, -1 ≤ step.2.windDirection ∧ step.2.windDirection ≤ 1) →
      -1 ≤ (run g steps).windDirection ∧ (run g steps).windDirection ≤ 1 := by
  induction steps with
  | nil =>
    intro g hg _
    exact hg
  | cons step steps ih =>
    intro g hg hsteps
    rw [run_cons]
    exact ih _ (update_direction_range g step.1 step.2 hg (hsteps step (List.mem_cons_self _ _)))
      (fun e he => hsteps e (List.mem_cons_of_mem _ he))

/-- C13: with the draws as inputs, one `updateWind` call decrements `windTimer`
and resamples exactly when the decremented timer is at (or below) zero, taking
the one draw of that call; otherwise it only counts down. After a resample that
sets `windTimer = N >= 1` and `windDirection = d`, the direction stays `d`
through any further `k < N` calls (the timer then reads `N - k`), whatever
draws are on offer, and the call number `N` resamples. Starting from
`resetGame`, with every offered direction in `[-1, 1]`, `windDirection` stays
in `[-1, 1]` over every sequence of `updateWind` calls and over every sequence
of scene ticks. -/
theorem updateWind_resamples_on_expiry :
    (∀ (g : GameState) (d : Draws),
      (g.windTimer - 1 ≤ 0 →
        (updateWind g d).windTimer = d.windTimer ∧
        (updateWind g d).windDirection = d.windDirection) ∧
      (0 < g.windTimer - 1 →
        (updateWind g d).windTimer = g.windTimer - 1 ∧
        (updateWind g d).windDirection = g.windDirection)) ∧
    (∀ (g : GameState) (d : Draws) (later : List Draws),
      g.windTimer - 1 ≤ 0 → (later.length : ℤ) < d.windTimer →
      (windRun (updateWind g d) later).windDirection = d.windDirection ∧
      (windRun (updateWind g d) later).windTimer = d.windTimer - later.length) ∧
    (∀ (g : GameState) (d : Draws) (later : List Draws) (next : Draws),
      g.windTimer - 1 ≤ 0 → (later.length : ℤ) = d.windTimer - 1 →
      (updateWind (windRun (updateWind g d) later) next).windDirection = next.windDirection ∧
      (updateWind (windRun (updateWind g d) later) next).windTimer = next.windTimer) ∧
    (∀ (g : GameState) (d0 : Draws) (draws : List Draws),
      (∀ d ∈ draws, -1 ≤ d.windDirection ∧ d.windDirection ≤ 1) →
      -1 ≤ (windRun (resetGame g d0) draws).windDirection ∧
      (windRun (resetGame g d0) draws).windDirection ≤ 1) ∧
    (∀ (g : GameState) (d0 : Draws) (steps : List (Input × Draws)),
      (∀ step ∈ steps, -1 ≤ step.2.windDirection ∧ step.2.windDirection ≤ 1) →
      -1 ≤ (run (resetGame g d0) steps).windDirection ∧
      (run (resetGame g d0) steps).windDirection ≤ 1) := by
  refine ⟨fun g d => ⟨updateWind_resample g d, updateWind_count g d⟩, ?_, ?_, ?_, ?_⟩
  · intro g d later hexp hlen
    obtain ⟨t, w⟩ := updateWind_resample g d hexp
    obtain ⟨h1, h2⟩ := windRun_hold later (updateWind g d) (by rw [t]; exact hlen)
    rw [h1, h2, w, t]
    exact ⟨rfl, rfl⟩
  · intro g d later next hexp hlen
    obtain ⟨t, _⟩ := updateWind_resample g d hexp
    obtain ⟨_, h2⟩ := windRun_hold later (updateWind g d) (by rw [t]; linarith)
    have hz : (windRun (updateWind g d) later).windTimer - 1 ≤ 0 := by
      rw [h2, t]
      linarith
    obtain ⟨t2, w2⟩ := updateWind_resample _ next hz
    exact ⟨w2, t2⟩
  · intro g d0 draws hd
    exact windRun_direction_range draws _ (by
      show (-1 : ℚ) ≤ 0 ∧ (0 : ℚ) ≤ 1
      norm_num) hd
  · intro g d0 steps hd
    exact run_direction_range steps _ (by
      show (-1 : ℚ) ≤ 0 ∧ (0 : ℚ) ≤ 1
      norm_num) hd

/-- Witness for C13: the first call after `resetGame` resamples to direction
`1/2` and timer 200; the next 199 calls, which all offer direction `-1`, leave
the direction at `1/2` and bring the timer to 1; call number 200 resamples to
`-1`. -/
theorem updateWind_resamples_on_expiry_witness :
    (updateWind (resetGame blankState crashDraws) crashDraws).windTimer = 200 ∧
    (updateWind (resetGame blankState crashDraws) crashDraws).windDirection = 1 / 2 ∧
    ((windRun (updateWind (resetGame blankState crashDraws) crashDraws)
        (List.replicate 199 westDraws)).windDirection = crashDraws.windDirection ∧
      (windRun (updateWind (resetGame blankState crashDraws) crashDraws)
        (List.replicate 199 westDraws)).windTimer =
          crashDraws.windTimer - (List.replicate 199 westDraws).length) ∧
    ((updateWind (windRun (updateWind (resetGame blankState crashDraws) crashDraws)
        (List.replicate 199 westDraws)) westDraws).windDirection = westDraws.windDirection ∧
      (updateWind (windRun (updateWind (resetGame blankState crashDraws) crashDraws)
        (List.replicate 199 westDraws)) westDraws).windTimer = westDraws.windTimer) ∧
    (-1 ≤ (windRun (resetGame blankState crashDraws)
        (List.replicate 300 westDraws)).windDirection ∧
      (windRun (resetGame blankState crashDraws)
        (List.replicate 300 westDraws)).windDirection ≤ 1) :=
  ⟨((updateWind_resamples_on_expiry.1 (resetGame blankState crashDraws) crashDraws).1
      (by decide!)).1,
   ((updateWind_resamples_on_expiry.1 (resetGame blankState crashDraws) crashDraws).1
      (by decide!)).2,
   updateWind_resamples_on_expiry.2.1 (resetGame blankState crashDraws) crashDraws
      (List.replicate 199 westDraws) (by decide!) (by decide!),
   updateWind_resamples_on_expiry.2.2.1 (resetGame blankState crashDraws) crashDraws
      (List.replicate 199 westDraws) westDraws (by decide!) (by decide!),
   updateWind_resamples_on_expiry.2.2.2.1 blankState crashDraws (List.replicate 300 westDraws)
      (fun d hd => by rw [List.eq_of_mem_replicate hd]; decide!)⟩

/-! ## Terminal states -/

theorem playerStep_jumping (g : GameState) (inp : Input) :
    (playerStep g inp).jumping = g.jumping := by
  unfold playerStep endRound updateHighScores
  simp only []
  split_ifs <;> rfl

theorem beforePlayer_of_jumping (g : GameState) (d : Draws) (h : g.jumping = true) :
    (beforePlayer g d).jumping = true ∧
    (beforePlayer g d).player = { g.player with wind := (beforePlayer g d).player.wind } := by
  unfold beforePlayer jumpCheck updateWind
  split_ifs with h1 h2 h3
  · simp [h] at h2
  · exact ⟨h, rfl⟩
  · simp [h] at h3
  · exact ⟨h, rfl⟩

theorem jumping_of_over (g : GameState) (h : Reachable g) :
    g.gameOver = true → g.jumping = true := by
  induction h with
  | reset g d =>
    intro hover
    exact absurd hover Bool.false_ne_true
  | @tick g0 inp d _ ih =>
    intro hover
    unfold update handleRestart at hover ⊢
    split_ifs at hover ⊢ with hr
    · exact absurd hover Bool.false_ne_true
    · rw [playerStep_jumping]
      by_cases hb : (beforePlayer g0 d).gameOver = true
      · exact (beforePlayer_of_jumping g0 d (ih ((beforePlayer_frame g0 d).2.1 ▸ hb))).1
      · have hguard : ((beforePlayer g0 d).jumping && !(beforePlayer g0 d).gameOver &&
            (beforePlayer g0 d).player.alive) = true := by
          by_contra hn
          apply hb
          unfold playerStep at hover
          rw [if_neg hn] at hover
          exact hover
        simp only [Bool.and_eq_true] at hguard
        exact hguard.1.1

theorem sameResult_refl (g : GameState) : sameResult g g :=
  ⟨rfl, rfl, rfl, rfl, rfl, rfl, rfl, rfl, rfl, rfl⟩

theorem sameResult_trans {g1 g2 g3 : GameState} (h12 : sameResult g1 g2)
    (h23 : sameResult g2 g3) : sameResult g1 g3 := by
  obtain ⟨a1, a2, a3, a4, a5, a6, a7, a8, a9, a10⟩ := h12
  obtain ⟨b1, b2, b3, b4, b5, b6, b7, b8, b9, b10⟩ := h23
  exact ⟨b1.trans a1, b2.trans a2, b3.trans a3, b4.trans a4, b5.trans a5, b6.trans a6,
    b7.trans a7, b8.trans a8, b9.trans a9, b10.trans a10⟩

theorem update_of_over (g : GameState) (inp : Input) (d : Draws)
    (hover : g.gameOver = true) (hr : inp.rJustDown = false) :
    update g inp d = beforePlayer g d := by
  have hb : (beforePlayer g d).gameOver = true := (beforePlayer_frame g d).2.1.trans hover
  unfold update
  rw [playerStep_of_over _ _ hb, handleRestart_of_over _ _ _ hb, hr]
  rfl

theorem sameResult_update_of_over (g : GameState) (inp : Input) (d : Draws)
    (hreach : Reachable g) (hover : g.gameOver = true) (hr : inp.rJustDown = false) :
    sameResult g (update g inp d) := by
  rw [update_of_over g inp d hover hr]
  obtain ⟨f1, f2, f3, _, _⟩ := beforePlayer_frame g d
  obtain ⟨_, hp⟩ := beforePlayer_of_jumping g d (jumping_of_over g hreach hover)
  refine ⟨?_, ?_, ?_, ?_, ?_, ?_, ?_, f1, f3, f2⟩ <;> rw [hp]

theorem sameResult_run_of_over (steps : List (Input × Draws)) :
    ∀ g : GameState, Reachable g → g.gameOver = true →
      (∀ step ∈ steps, step.1.rJustDown = false) → sameResult g (run g steps) := by
  induction steps with
  | nil =>
    intro g _ _ _
    exact sameResult_refl g
  | cons step steps ih =>
    intro g hreach hover hsteps
    have h1 := sameResult_update_of_over g step.1 step.2 hreach hover
      (hsteps step (List.mem_cons_self _ _))
    rw [run_cons]
    exact sameResult_trans h1 (ih _ (Reachable.tick _ _ hreach)
      (h1.2.2.2.2.2.2.2.2.2.trans hover) (fun e he => hsteps e (List.mem_cons_of_mem _ he)))

theorem playerStep_result_once (g : GameState) (inp : Input) :
    ((playerStep g inp).score = g.score ∧ (playerStep g inp).highScores = g.highScores) ∨
    (g.gameOver = false ∧ (playerStep g inp).gameOver = true) := by
  unfold playerStep
  split_ifs with hguard hhit
  · right
    simp only [Bool.and_eq_true, Bool.not_eq_true'] at hguard
    exact ⟨hguard.1.2, (endRound_frame _).2⟩
  · left
    exact ⟨rfl, rfl⟩
  · left
    exact ⟨rfl, rfl⟩

/-- C14: Landed and Crashed are terminal. From every reachable round state with
`gameOver = true`, a scene tick without a restart press, and likewise any
sequence of such ticks, leaves the player's `x`, `y`, `velocityX`, `velocityY`,
`alive`, `landed` and `parachuteDeployed`, the score, the high-score list and
`gameOver` unchanged. A tick without a restart press changes the score or the
high-score list only if it is the tick in which `gameOver` turns from false to
true, so the result of a round is produced at most once. -/
theorem round_result_is_final :
    (∀ (g : GameState) (inp : Input) (d : Draws), Reachable g → g.gameOver = true →
      inp.rJustDown = false → sameResult g (update g inp d)) ∧
    (∀ (g : GameState) (steps : List (Input × Draws)), Reachable g → g.gameOver = true →
      (∀ step ∈ steps, step.1.rJustDown = false) → sameResult g (run g steps)) ∧
    (∀ (g : GameState) (inp : Input) (d : Draws), inp.rJustDown = false →
      ((update g inp d).score = g.score ∧ (update g inp d).highScores = g.highScores) ∨
      (g.gameOver = false ∧ (update g inp d).gameOver = true)) := by
  refine ⟨sameResult_update_of_over, fun g steps hreach hover hsteps =>
    sameResult_run_of_over steps g hreach hover hsteps, ?_⟩
  intro g inp d hr
  obtain ⟨f1, f2, f3, _, _⟩ := beforePlayer_frame g d
  have hu : update g inp d = playerStep (beforePlayer g d) inp := by
    unfold update handleRestart
    rw [hr]
    simp
  rw [hu]
  rcases playerStep_result_once (beforePlayer g d) inp with h | h
  · left
    exact ⟨h.1.trans f1, h.2.trans f3⟩
  · right
    exact ⟨f2.symm.trans h.1, h.2⟩

/-- Witness for C14: after the crash that follows `beforeCrash`, fifty more ticks
with the steering keys held change nothing of the result, and the tick of the
crash itself is the one in which `gameOver` turns true. -/
theorem round_result_is_final_witness :
    sameResult (update beforeCrash noKeys crashDraws)
      (update (update beforeCrash noKeys crashDraws) ⟨true, false, true, false⟩ westDraws) ∧
    sameResult (update beforeCrash noKeys crashDraws)
      (run (update beforeCrash noKeys crashDraws)
        (List.replicate 50 (⟨false, true, true, false⟩, westDraws))) ∧
    (((update beforeCrash noKeys crashDraws).score = beforeCrash.score ∧
        (update beforeCrash noKeys crashDraws).highScores = beforeCrash.highScores) ∨
      (beforeCrash.gameOver = false ∧ (update beforeCrash noKeys crashDraws).gameOver = true)) :=
  ⟨round_result_is_final.1 (update beforeCrash noKeys crashDraws) ⟨true, false, true, false⟩
      westDraws (Reachable.tick _ _ (reachable_run _ _ (Reachable.reset _ _))) (by decide!) rfl,
   round_result_is_final.2.1 (update beforeCrash noKeys crashDraws)
      (List.replicate 50 (⟨false, true, true, false⟩, westDraws))
      (Reachable.tick _ _ (reachable_run _ _ (Reachable.reset _ _))) (by decide!)
      (fun step hstep => by rw [List.eq_of_mem_replicate hstep]),
   round_result_is_final.2.2 beforeCrash noKeys crashDraws rfl⟩

/-! ## Landing zones among themselves -/

theorem sortByX_sorted (obstacles : List Obstacle) :
    List.Pairwise (fun a b : Obstacle => a.x ≤ b.x) (sortByX obstacles) := by
  haveI : IsTotal Obstacle (fun a b => a.x ≤ b.x) := ⟨fun a b => le_total a.x b.x⟩
  haveI : IsTrans Obstacle (fun a b => a.x ≤ b.x) := ⟨fun _ _ _ hab hbc => le_trans hab hbc⟩
  exact List.sorted_insertionSort (fun a b : Obstacle => a.x ≤ b.x) obstacles

theorem mem_sortByX {obstacles : List Obstacle} {o : Obstacle} (h : o ∈ sortByX obstacles) :
    o ∈ obstacles :=
  (List.perm_insertionSort (fun a b : Obstacle => a.x ≤ b.x) obstacles).mem_iff.mp h

theorem leadingZone_cons (first : Obstacle) (rest : List Obstacle) :
    leadingZone (first :: rest) =
      if first.x > 100 then
        [{ x := first.x - min 100 (first.x - 50) - 10
           y := GROUND_Y - 10
           width := min 100 (first.x - 50)
           height := 10 }]
      else [] := rfl

theorem leadingZone_mem {sorted : List Obstacle} {z : LandingZone}
    (h : z ∈ leadingZone sorted) :
    0 < z.width ∧ ∃ first rest, sorted = first :: rest ∧ z.x + z.width = first.x - 10 := by
  cases sorted with
  | nil => simp [leadingZone] at h
  | cons first rest =>
    rw [leadingZone_cons] at h
    split_ifs at h with hx
    · rw [List.mem_singleton] at h
      subst h
      refine ⟨?_, first, rest, rfl, ?_⟩
      · show (0 : ℚ) < min 100 (first.x - 50)
        exact lt_min (by norm_num) (by linarith)
      · show first.x - min 100 (first.x - 50) - 10 + min 100 (first.x - 50) = first.x - 10
        ring
    · simp at h

theorem trailingZone_mem {sorted : List Obstacle} {z : LandingZone}
    (h : z ∈ trailingZone sorted) :
    0 < z.width ∧ ∃ last, sorted.getLast? = some last ∧ z.x = last.x + last.width + 10 := by
  unfold trailingZone at h
  cases hl : sorted.getLast? with
  | none =>
    rw [hl] at h
    simp at h
  | some last =>
    rw [hl] at h
    simp only [] at h
    split_ifs at h with hx
    · rw [List.mem_singleton] at h
      subst h
      refine ⟨?_, last, rfl, rfl⟩
      show (0 : ℚ) < min 100 (GAME_WIDTH - (last.x + last.width) - 50)
      exact lt_min (by norm_num) (by linarith)
    · simp at h

theorem gapZone_bounds (a b : Obstacle) (hgap : gapBetween a b > 80) :
    0 < (gapZone a b).width ∧ a.x + a.width + 10 ≤ (gapZone a b).x ∧
    (gapZone a b).x + (gapZone a b).width ≤ b.x - 10 := by
  have hmin : min (gapBetween a b - 20) 100 ≤ gapBetween a b - 20 := min_le_left _ _
  have hpos : 0 < min (gapBetween a b - 20) 100 := lt_min (by linarith) (by norm_num)
  have hgapdef : gapBetween a b = b.x - (a.x + a.width) := rfl
  refine ⟨hpos, ?_, ?_⟩
  · show a.x + a.width + 10 ≤
      a.x + a.width + (gapBetween a b - min (gapBetween a b - 20) 100) / 2
    linarith
  · show a.x + a.width + (gapBetween a b - min (gapBetween a b - 20) 100) / 2
      + min (gapBetween a b - 20) 100 ≤ b.x - 10
    linarith

theorem betweenZones_cons_cons (a b : Obstacle) (rest : List Obstacle) :
    betweenZones (a :: b :: rest) =
      if gapBetween a b > 80 then gapZone a b :: betweenZones (b :: rest)
      else betweenZones (b :: rest) := by
  rw [betweenZones]

theorem betweenZones_mem (sorted : List Obstacle) :
    ∀ z ∈ betweenZones sorted, 0 < z.width ∧
      (∃ a ∈ sorted, a.x + a.width + 10 ≤ z.x) ∧ (∃ b ∈ sorted, z.x + z.width ≤ b.x - 10) := by
  induction sorted with
  | nil =>
    intro z hz
    simp [betweenZones] at hz
  | cons a tail ih =>
    cases tail with
    | nil =>
      intro z hz
      simp [betweenZones] at hz
    | cons b rest =>
      intro z hz
      rw [betweenZones_cons_cons] at hz
      have hrest : z ∈ betweenZones (b :: rest) → 0 < z.width ∧
          (∃ a' ∈ a :: b :: rest, a'.x + a'.width + 10 ≤ z.x) ∧
          (∃ b' ∈ a :: b :: rest, z.x + z.width ≤ b'.x - 10) := by
        intro hz'
        obtain ⟨w, ⟨a', ha', hlow⟩, ⟨b', hb', hup⟩⟩ := ih z hz'
        exact ⟨w, ⟨a', List.mem_cons_of_mem _ ha', hlow⟩, ⟨b', List.mem_cons_of_mem _ hb', hup⟩⟩
      split_ifs at hz with hgap
      · rcases List.mem_cons.mp hz with rfl | hz'
        · obtain ⟨w, hlow, hup⟩ := gapZone_bounds a b hgap
          exact ⟨w, ⟨a, List.mem_cons_self _ _, hlow⟩,
            ⟨b, List.mem_cons_of_mem _ (List.mem_cons_self _ _), hup⟩⟩
        · exact hrest hz'
      · exact hrest hz

theorem betweenZones_after_head (a : Obstacle) (rest : List Obstacle)
    (hsorted : List.Pairwise (fun a b : Obstacle => a.x ≤ b.x) (a :: rest))
    (hwidth : ∀ o ∈ a :: rest, 0 < o.width) :
    ∀ z ∈ betweenZones (a :: rest), a.x + 10 < z.x := by
  intro z hz
  obtain ⟨_, ⟨a', ha', hlow⟩, _⟩ := betweenZones_mem (a :: rest) z hz
  have hw := hwidth a' ha'
  rcases List.mem_cons.mp ha' with rfl | hmem
  · linarith
  · have hle := (List.pairwise_cons.mp hsorted).1 a' hmem
    linarith

theorem betweenZones_pairwise (sorted : List Obstacle)
    (hsorted : List.Pairwise (fun a b : Obstacle => a.x ≤ b.x) sorted)
    (hwidth : ∀ o ∈ sorted, 0 < o.width) :
    List.Pairwise (fun z1 z2 : LandingZone => z1.x + z1.width < z2.x) (betweenZones sorted) := by
  induction sorted with
  | nil => simp [betweenZones]
  | cons a tail ih =>
    have htail := ih (List.pairwise_cons.mp hsorted).2
      (fun o ho => hwidth o (List.mem_cons_of_mem _ ho))
    cases tail with
    | nil => simp [betweenZones]
    | cons b rest =>
      rw [betweenZones_cons_cons]
      split_ifs with hgap
      · refine List.pairwise_cons.mpr ⟨fun z hz => ?_, htail⟩
        obtain ⟨_, _, hup⟩ := gapZone_bounds a b hgap
        have hafter := betweenZones_after_head b rest (List.pairwise_cons.mp hsorted).2
          (fun o ho => hwidth o (List.mem_cons_of_mem _ ho)) z hz
        linarith
      · exact htail

theorem le_last_of_sorted {sorted : List Obstacle} {last : Obstacle}
    (hsorted : List.Pairwise (fun a b : Obstacle => a.x ≤ b.x) sorted)
    (hlast : sorted.getLast? = some last) : ∀ o ∈ sorted, o.x ≤ last.x := by
  obtain ⟨front, rfl⟩ := List.getLast?_eq_some_iff.mp hlast
  intro o ho
  rcases List.mem_append.mp ho with hfront | hend
  · exact (List.pairwise_append.mp hsorted).2.2 o hfront last (List.mem_singleton_self _)
  · rw [List.mem_singleton.mp hend]

theorem zones_pairwise_of_sorted (sorted : List Obstacle)
    (hsorted : List.Pairwise (fun a b : Obstacle => a.x ≤ b.x) sorted)
    (hwidth : ∀ o ∈ sorted, 0 < o.width) :
    List.Pairwise (fun z1 z2 : LandingZone => z1.x + z1.width < z2.x)
      (leadingZone sorted ++ betweenZones sorted ++ trailingZone sorted) := by
  have hlead : ∀ z ∈ leadingZone sorted, ∀ o ∈ sorted, z.x + z.width ≤ o.x - 10 := by
    intro z hz o ho
    obtain ⟨_, first, rest, hs, hend⟩ := leadingZone_mem hz
    subst hs
    rw [hend]
    rcases List.mem_cons.mp ho with rfl | hmem
    · exact le_refl _
    · have := (List.pairwise_cons.mp hsorted).1 o hmem
      linarith
  have hone_lead : List.Pairwise (fun z1 z2 : LandingZone => z1.x + z1.width < z2.x)
      (leadingZone sorted) := by
    cases sorted with
    | nil => simp [leadingZone]
    | cons first rest =>
      rw [leadingZone_cons]
      split_ifs <;> simp
  have hone_trail : List.Pairwise (fun z1 z2 : LandingZone => z1.x + z1.width < z2.x)
      (trailingZone sorted) := by
    unfold trailingZone
    cases sorted.getLast? with
    | none => simp
    | some last =>
      simp only []
      split_ifs <;> simp
  refine List.pairwise_append.mpr ⟨List.pairwise_append.mpr
    ⟨hone_lead, betweenZones_pairwise sorted hsorted hwidth, ?_⟩, hone_trail, ?_⟩
  · intro z1 hz1 z2 hz2
    obtain ⟨_, ⟨a, ha, hlow⟩, _⟩ := betweenZones_mem sorted z2 hz2
    have h1 := hlead z1 hz1 a ha
    have hw := hwidth a ha
    linarith
  · intro z1 hz1 z2 hz2
    obtain ⟨_, last, hlast, hx⟩ := trailingZone_mem hz2
    have hlastmem := List.mem_of_getLast?_eq_some hlast
    have hw := hwidth last hlastmem
    rcases List.mem_append.mp hz1 with hl | hb
    · have h1 := hlead z1 hl last hlastmem
      linarith
    · obtain ⟨_, _, ⟨b, hbmem, hup⟩⟩ := betweenZones_mem sorted z1 hb
      have hle := le_last_of_sorted hsorted hlast b hbmem
      linarith

theorem zones_width_pos (sorted : List Obstacle) :
    ∀ z ∈ leadingZone sorted ++ betweenZones sorted ++ trailingZone sorted, 0 < z.width := by
  intro z hz
  rcases List.mem_append.mp hz with h | h
  · rcases List.mem_append.mp h with h | h
    · exact (leadingZone_mem h).1
    · exact (betweenZones_mem sorted z h).1
  · exact (trailingZone_mem h).1

/-- C15: for every obstacle list with positive widths, the landing zones
returned by `createLandingZones` come out in ascending `x` order and do not
overlap each other: for every two zones of the list, the earlier one starts
before the later one and its right end `x + width` is strictly less than the
later zone's `x`. -/
theorem createLandingZones_disjoint (obstacles : List Obstacle)
    (hwidth : ∀ o ∈ obstacles, 0 < o.width) :
    List.Pairwise (fun z1 z2 : LandingZone => z1.x < z2.x ∧ z1.x + z1.width < z2.x)
      (createLandingZones obstacles) := by
  unfold createLandingZones
  have hpair := zones_pairwise_of_sorted (sortByX obstacles) (sortByX_sorted obstacles)
    (fun o ho => hwidth o (mem_sortByX ho))
  refine hpair.imp_of_mem ?_
  intro z1 z2 hz1 _ h
  have hw := zones_width_pos (sortByX obstacles) z1 hz1
  exact ⟨by linarith, h⟩

/-- Witness for C15: the four zones generated for the nested obstacles of
`nestedPositions` are `[141, 240]`, `[290, 390]`, `[465, 565]`, `[640, 740]`. -/
theorem createLandingZones_disjoint_witness :
    (createLandingZones (createObstacles nestedPositions nestedSizes)).map
        (fun z => (z.x, z.x + z.width)) = [(141, 240), (290, 390), (465, 565), (640, 740)] ∧
    List.Pairwise (fun z1 z2 : LandingZone => z1.x < z2.x ∧ z1.x + z1.width < z2.x)
      (createLandingZones (createObstacles nestedPositions nestedSizes)) :=
  ⟨by decide!, createLandingZones_disjoint (createObstacles nestedPositions nestedSizes)
    (by decide!)⟩

/-! ## `checkCollision`: effects and return value -/

theorem playerStep_obstacles (g : GameState) (inp : Input) :
    (playerStep g inp).obstacles = g.obstacles ∧
    (playerStep g inp).landingZones = g.landingZones := by
  unfold playerStep endRound updateHighScores
  simp only []
  split_ifs <;> exact ⟨rfl, rfl⟩

/-- C16: for a player that is alive and not landed, `checkCollision` returns
`true` exactly when afterwards `alive = false` or `landed = true`. When it
returns `false` the player is unchanged. With an obstacle overlap (tested
first) the result is the same player with only `alive` set to false, also at
or below the ground: `landed` stays false and `y` is not clamped. Without an
overlap and with the bottom at or below the ground it returns `true` with
`y = GROUND_Y - height` and `landed = true`. The obstacle list of the round is
the same after the player block of the scene tick. -/
theorem Player.checkCollision_consistent (p : Player) (obstacles : List Obstacle)
    (halive : p.alive = true) (hlanded : p.landed = false) :
    ((p.checkCollision obstacles).2 = true ↔
      ((p.checkCollision obstacles).1.alive = false ∨
        (p.checkCollision obstacles).1.landed = true)) ∧
    ((p.checkCollision obstacles).2 = false → (p.checkCollision obstacles).1 = p) ∧
    (p.hitsAny obstacles = true →
      p.checkCollision obstacles = ({ p with alive := false }, true) ∧
      (p.checkCollision obstacles).1.landed = false ∧
      (p.checkCollision obstacles).1.y = p.y) ∧
    (p.hitsAny obstacles = false → p.y + p.height ≥ GROUND_Y →
      (p.checkCollision obstacles).2 = true ∧
      (p.checkCollision obstacles).1.y = GROUND_Y - (p.checkCollision obstacles).1.height ∧
      (p.checkCollision obstacles).1.landed = true) ∧
    (∀ (g : GameState) (inp : Input), (playerStep g inp).obstacles = g.obstacles) := by
  refine ⟨?_, p.checkCollision_false obstacles, fun hhit => ?_, fun hnone hground => ?_,
    fun g inp => (playerStep_obstacles g inp).1⟩
  · unfold Player.checkCollision
    split_ifs
    · exact ⟨fun _ => Or.inl rfl, fun _ => rfl⟩
    · exact ⟨fun _ => Or.inl rfl, fun _ => rfl⟩
    · exact ⟨fun _ => Or.inr rfl, fun _ => rfl⟩
    · constructor
      · intro h
        simp at h
      · intro h
        rcases h with h | h
        · rw [halive] at h
          simp at h
        · rw [hlanded] at h
          simp at h
  · rw [Player.checkCollision_of_hitsAny p obstacles hhit]
    exact ⟨rfl, hlanded, rfl⟩
  · unfold Player.checkCollision
    rw [hnone, if_neg Bool.false_ne_true, if_pos hground]
    split_ifs <;> exact ⟨rfl, rfl, rfl⟩

/-- Witness for C16: a new player at `(261, 521)` hits the obstacle at `x = 300`
with its feet below the ground line and only loses `alive`; with the obstacle
at `x = 400` it is put on the ground; high up at `y = 100` nothing changes. -/
theorem Player.checkCollision_consistent_witness :
    ((Player.new 261 521).checkCollision [Obstacle.new 300 50 100] =
        ({ Player.new 261 521 with alive := false }, true) ∧
      ((Player.new 261 521).checkCollision [Obstacle.new 300 50 100]).1.landed = false ∧
      ((Player.new 261 521).checkCollision [Obstacle.new 300 50 100]).1.y =
        (Player.new 261 521).y) ∧
    (((Player.new 261 521).checkCollision [Obstacle.new 400 50 100]).2 = true ∧
      ((Player.new 261 521).checkCollision [Obstacle.new 400 50 100]).1.y =
        GROUND_Y - ((Player.new 261 521).checkCollision [Obstacle.new 400 50 100]).1.height ∧
      ((Player.new 261 521).checkCollision [Obstacle.new 400 50 100]).1.landed = true) ∧
    ((Player.new 261 100).checkCollision [Obstacle.new 400 50 100]).1 = Player.new 261 100 :=
  ⟨(Player.checkCollision_consistent (Player.new 261 521) [Obstacle.new 300 50 100]
      rfl rfl).2.2.1 (by decide!),
   (Player.checkCollision_consistent (Player.new 261 521) [Obstacle.new 400 50 100]
      rfl rfl).2.2.2.1 (by decide!) (by decide!),
   (Player.checkCollision_consistent (Player.new 261 100) [Obstacle.new 400 50 100]
      rfl rfl).2.1 (by decide!)⟩

/-! ## Wind seen by the player -/

theorem movedPlayer_eq (g : GameState) (inp : Input) :
    movedPlayer g inp = (keyedPlayer g inp).update ⟨inp.left, inp.right⟩ := rfl

theorem Player.deployParachute_wind (p : Player) : p.deployParachute.wind = p.wind := by
  unfold Player.deployParachute
  split_ifs <;> rfl

theorem Player.update_wind (p : Player) (cursors : Cursors) :
    (p.update cursors).wind = p.wind := by
  unfold Player.update Player.applyGravity Player.updateHorizontal
  split_ifs <;> rfl

theorem Player.checkCollision_wind (p : Player) (obstacles : List Obstacle) :
    (p.checkCollision obstacles).1.wind = p.wind := by
  unfold Player.checkCollision
  split_ifs <;> rfl

theorem keyedPlayer_wind (g : GameState) (inp : Input) :
    (keyedPlayer g inp).wind = g.player.wind := by
  unfold keyedPlayer
  split_ifs
  · exact Player.deployParachute_wind _
  · rfl

theorem beforePlayer_player_wind (g : GameState) (d : Draws)
    (h : g.player.wind = g.windDirection) :
    (beforePlayer g d).player.wind = (beforePlayer g d).windDirection := by
  unfold beforePlayer jumpCheck updateWind
  split_ifs <;> first | rfl | exact h

theorem playerStep_player_wind (g : GameState) (inp : Input)
    (h : g.player.wind = g.windDirection) :
    (playerStep g inp).player.wind = (playerStep g inp).windDirection := by
  rw [(playerStep_wind g inp).1]
  unfold playerStep
  split_ifs
  · rw [(endRound_frame _).1]
    show ((movedPlayer g inp).checkCollision g.obstacles).1.wind = g.windDirection
    rw [Player.checkCollision_wind, movedPlayer_eq, Player.update_wind, keyedPlayer_wind]
    exact h
  · show ((movedPlayer g inp).checkCollision g.obstacles).1.wind = g.windDirection
    rw [Player.checkCollision_wind, movedPlayer_eq, Player.update_wind, keyedPlayer_wind]
    exact h
  · exact h

theorem wind_of_reachable (g : GameState) (h : Reachable g) :
    g.player.wind = g.windDirection := by
  induction h with
  | reset g d => rfl
  | @tick g0 inp d _ ih =>
    unfold update handleRestart
    split_ifs
    · rfl
    · exact playerStep_player_wind _ inp (beforePlayer_player_wind g0 d ih)

/-- C17: in every round state reachable from `resetGame` by scene ticks,
`player.wind` equals `gameState.windDirection`. Within a tick this also holds
after `updateWind`, for the player on which `update` is called, so under a
deployed parachute the wind term that `Player.update` adds to `velocityX` is
0.1 times the wind direction current in that tick. -/
theorem player_wind_is_current (g : GameState) (hreach : Reachable g) :
    g.player.wind = g.windDirection ∧
    (∀ (inp : Input) (d : Draws),
      (beforePlayer g d).windDirection = (updateWind g d).windDirection ∧
      movedPlayer (beforePlayer g d) inp =
        (keyedPlayer (beforePlayer g d) inp).update ⟨inp.left, inp.right⟩ ∧
      (keyedPlayer (beforePlayer g d) inp).wind = (beforePlayer g d).windDirection ∧
      ((keyedPlayer (beforePlayer g d) inp).parachuteDeployed = true →
        (keyedPlayer (beforePlayer g d) inp).windedVelocityX ⟨inp.left, inp.right⟩ =
          (keyedPlayer (beforePlayer g d) inp).handleInput ⟨inp.left, inp.right⟩
            + (beforePlayer g d).windDirection * (1 / 10))) := by
  have hw := wind_of_reachable g hreach
  refine ⟨hw, fun inp d => ?_⟩
  have hk : (keyedPlayer (beforePlayer g d) inp).wind = (beforePlayer g d).windDirection := by
    rw [keyedPlayer_wind]
    exact beforePlayer_player_wind g d hw
  refine ⟨(beforePlayer_wind g d).1, rfl, hk, fun hdep => ?_⟩
  unfold Player.windedVelocityX
  rw [if_pos hdep, hk]

/-- Witness for C17: in `midAir` the wind drawn in the first tick (`1/2`) is
still current; in a tick with the parachute key the deployed player's
`velocityX` gets `0 + 1/2 * 0.1`. -/
theorem player_wind_is_current_witness :
    midAir.player.wind = midAir.windDirection ∧ midAir.windDirection = 1 / 2 ∧
    (keyedPlayer (beforePlayer midAir crashDraws) parachuteKey).windedVelocityX ⟨false, false⟩ =
      (keyedPlayer (beforePlayer midAir crashDraws) parachuteKey).handleInput ⟨false, false⟩
        + (beforePlayer midAir crashDraws).windDirection * (1 / 10) ∧
    (movedPlayer (beforePlayer midAir crashDraws) parachuteKey).velocityX = 1 / 20 :=
  have h := player_wind_is_current midAir (reachable_run _ _ (Reachable.reset _ _))
  ⟨h.1, by decide!, (h.2 parachuteKey crashDraws).2.2.2 (by decide!), by decide!⟩

/-! ## Falling without parachute -/

theorem Player.applyGravity_of_not_landed (p : Player) (h : p.landed = false) :
    p.applyGravity =
      { p with
        velocityY := min p.maxSpeed (p.velocityY + p.gravity)
        y := p.y + min p.maxSpeed (p.velocityY + p.gravity) } := by
  unfold Player.applyGravity
  rw [h]
  rfl

theorem Player.updateHorizontal_vertical (p : Player) (cursors : Cursors) :
    (p.updateHorizontal cursors).y = p.y ∧ (p.updateHorizontal cursors).height = p.height ∧
    (p.updateHorizontal cursors).alive = p.alive := by
  unfold Player.updateHorizontal
  split_ifs <;> exact ⟨rfl, rfl, rfl⟩

theorem Player.update_vertical (p : Player) (cursors : Cursors) (h : p.landed = false) :
    (p.update cursors).velocityY = min p.maxSpeed (p.velocityY + p.gravity) ∧
    (p.update cursors).y = p.y + min p.maxSpeed (p.velocityY + p.gravity) ∧
    (p.update cursors).gravity = p.gravity ∧ (p.update cursors).maxSpeed = p.maxSpeed ∧
    (p.update cursors).height = p.height ∧ (p.update cursors).landed = false ∧
    (p.update cursors).alive = p.alive := by
  obtain ⟨c1, c2, c3⟩ := p.updateHorizontal_cap cursors
  obtain ⟨v1, v2, v3⟩ := p.updateHorizontal_vertical cursors
  have hl : (p.updateHorizontal cursors).landed = false :=
    (p.updateHorizontal_landed cursors).trans h
  unfold Player.update
  rw [Player.applyGravity_of_not_landed _ hl]
  refine ⟨?_, ?_, c3, c2, v2, hl, v3⟩
  · show min (p.updateHorizontal cursors).maxSpeed
      ((p.updateHorizontal cursors).velocityY + (p.updateHorizontal cursors).gravity) = _
    rw [c1, c2, c3]
  · show (p.updateHorizontal cursors).y + min (p.updateHorizontal cursors).maxSpeed
      ((p.updateHorizontal cursors).velocityY + (p.updateHorizontal cursors).gravity) = _
    rw [c1, c2, c3, v1]

theorem FreeFall_update (p : Player) (cursors : Cursors) (h : FreeFall p) :
    FreeFall (p.update cursors) := by
  obtain ⟨hg, hm, hh, hl, hv, hy⟩ := h
  obtain ⟨u1, u2, u3, u4, u5, u6, _⟩ := p.update_vertical cursors hl
  unfold FreeFall
  rw [u1, u2, u3, u4, u5, u6, hg, hm]
  refine ⟨rfl, rfl, hh, rfl, le_min (by norm_num) (by linarith), fun hslow => ?_⟩
  have hmin : min (7 : ℚ) (p.velocityY + 2 / 10) = p.velocityY + 2 / 10 := by
    apply min_eq_right
    by_contra hn
    rw [min_eq_left (le_of_lt (not_le.mp hn))] at hslow
    norm_num at hslow
  rw [hmin] at hslow ⊢
  have := hy (by linarith)
  linarith

theorem FreeFall_fall (keys : List Cursors) :
    ∀ p : Player, FreeFall p → FreeFall (fall p keys) := by
  induction keys with
  | nil =>
    intro p h
    exact h
  | cons c keys ih =>
    intro p h
    exact ih _ (FreeFall_update p c h)

theorem FreeFall_ground_is_fast (p : Player) (h : FreeFall p)
    (hground : p.y + p.height ≥ GROUND_Y) : p.velocityY > 3 := by
  obtain ⟨_, _, hh, _, _, hy⟩ := h
  by_contra hn
  have hle : p.velocityY ≤ 3 := not_lt.mp hn
  have := hy hle
  have hG : GROUND_Y = 580 := by
    unfold GROUND_Y GAME_HEIGHT
    norm_num
  rw [hh, hG] at hground
  linarith

theorem FreeFall_collision_kills (p : Player) (obstacles : List Obstacle) (h : FreeFall p)
    (hret : (p.checkCollision obstacles).2 = true) :
    (p.checkCollision obstacles).1.alive = false := by
  unfold Player.checkCollision at hret ⊢
  split_ifs at hret ⊢ with hhit hground hfast
  · rfl
  · rfl
  · exact absurd (FreeFall_ground_is_fast p h hground) hfast

theorem beforePlayer_jump_cases (g : GameState) (d : Draws) :
    (beforePlayer g d).plane.y + (beforePlayer g d).plane.height =
      g.plane.y + g.plane.height ∧
    (beforePlayer g d).player.gravity = g.player.gravity ∧
    (beforePlayer g d).player.height = g.player.height ∧
    (((beforePlayer g d).jumping = g.jumping ∧ (beforePlayer g d).player.y = g.player.y) ∨
      (g.jumping = false ∧ (beforePlayer g d).jumping = true ∧
        (beforePlayer g d).player.y = g.plane.y + g.plane.height)) := by
  unfold beforePlayer jumpCheck updateWind Plane.update
  split_ifs <;> refine ⟨rfl, rfl, rfl, ?_⟩ <;>
    first
      | exact Or.inl ⟨rfl, rfl⟩
      | (right; refine ⟨?_, rfl, rfl⟩; simp_all)

theorem NoChute_resetGame (g : GameState) (d : Draws) :
    NoChute g.highScores (resetGame g d) := by
  refine ⟨rfl, rfl, fun h => absurd h.1 Bool.false_ne_true, fun _ => ⟨?_, fun h => ?_, fun _ => ?_⟩⟩
  · show (30 : ℚ) + 30 = 60
    norm_num
  · exact absurd h Bool.false_ne_true
  · exact ⟨rfl, rfl, rfl, rfl, rfl⟩

theorem NoChute_beforePlayer (stored : List ℤ) (g : GameState) (d : Draws)
    (h : NoChute stored g) : NoChute stored (beforePlayer g d) := by
  obtain ⟨hs, hh, hna, hround⟩ := h
  obtain ⟨f1, f2, f3, _, _⟩ := beforePlayer_frame g d
  obtain ⟨p1, p2, p3, p4⟩ := beforePlayer_player g d
  obtain ⟨j1, j2, j3, j4⟩ := beforePlayer_jump_cases g d
  refine ⟨f1.trans hs, f3.trans hh, ?_, fun hover => ?_⟩
  · rw [p3, p4]
    exact hna
  · obtain ⟨hplane, hjump, hwait⟩ := hround (f2.symm.trans hover)
    refine ⟨j1.trans hplane, fun hj => ?_, fun hj => ?_⟩
    · rcases j4 with ⟨e1, e2⟩ | ⟨e1, _, e3⟩
      · obtain ⟨a1, a2, a3, a4, a5, a6⟩ := hjump (e1.symm.trans hj)
        unfold FreeFall
        rw [j2, p2, j3, p3, p1, e2]
        exact ⟨a1, a2, a3, a4, a5, a6⟩
      · obtain ⟨a1, a2, a3, a4, a5⟩ := hwait e1
        unfold FreeFall
        rw [j2, p2, j3, p3, p1, e3, hplane, a5]
        exact ⟨a1, a2, a3, a4, le_refl _, fun _ => by norm_num⟩
    · rcases j4 with ⟨e1, _⟩ | ⟨_, e2, _⟩
      · obtain ⟨a1, a2, a3, a4, a5⟩ := hwait (e1.symm.trans hj)
        unfold PreJump
        rw [j2, p2, j3, p3, p1]
        exact ⟨a1, a2, a3, a4, a5⟩
      · rw [e2] at hj
        exact absurd hj.symm Bool.false_ne_true

theorem movedPlayer_of_no_space (g : GameState) (inp : Input)
    (hspace : inp.spaceJustDown = false) :
    movedPlayer g inp = g.player.update ⟨inp.left, inp.right⟩ := by
  unfold movedPlayer
  rw [hspace]
  rfl

theorem NoChute_playerStep (stored : List ℤ) (g : GameState) (inp : Input)
    (hspace : inp.spaceJustDown = false) (h : NoChute stored g) :
    NoChute stored (playerStep g inp) := by
  obtain ⟨hs, hh, hna, hround⟩ := h
  unfold playerStep
  split_ifs with hguard hret
  · simp only [Bool.and_eq_true, Bool.not_eq_true'] at hguard
    obtain ⟨_, hjump, _⟩ := hround hguard.1.2
    have hfall : FreeFall (movedPlayer g inp) := by
      rw [movedPlayer_of_no_space g inp hspace]
      exact FreeFall_update _ _ (hjump hguard.1.1)
    have hdead := FreeFall_collision_kills _ g.obstacles hfall hret
    rw [endRound_of_not_alive _ hdead]
    refine ⟨hs, hh, fun hboth => ?_, fun hover => absurd hover.symm Bool.false_ne_true⟩
    exact absurd (hdead.symm.trans hboth.2) Bool.false_ne_true
  · simp only [Bool.and_eq_true, Bool.not_eq_true'] at hguard
    obtain ⟨hplane, hjump, _⟩ := hround hguard.1.2
    have hfall : FreeFall (movedPlayer g inp) := by
      rw [movedPlayer_of_no_space g inp hspace]
      exact FreeFall_update _ _ (hjump hguard.1.1)
    have hsame := (movedPlayer g inp).checkCollision_false g.obstacles (by simpa using hret)
    refine ⟨hs, hh, fun hboth => ?_, fun _ => ⟨hplane, fun _ => ?_, fun hj => ?_⟩⟩
    · have hl : ((movedPlayer g inp).checkCollision g.obstacles).1.landed = true := hboth.1
      rw [hsame, hfall.2.2.2.1] at hl
      exact absurd hl Bool.false_ne_true
    · show FreeFall ((movedPlayer g inp).checkCollision g.obstacles).1
      rw [hsame]
      exact hfall
    · exact absurd (hj.symm.trans hguard.1.1) Bool.false_ne_true
  · exact ⟨hs, hh, hna, hround⟩

theorem NoChute_update (stored : List ℤ) (g : GameState) (inp : Input) (d : Draws)
    (hspace : inp.spaceJustDown = false) (h : NoChute stored g) :
    NoChute stored (update g inp d) := by
  have hstep := NoChute_playerStep stored _ inp hspace (NoChute_beforePlayer stored g d h)
  unfold update handleRestart
  split_ifs
  · have hreset := NoChute_resetGame (playerStep (beforePlayer g d) inp) d
    rw [hstep.2.1] at hreset
    exact hreset
  · exact hstep

theorem NoChute_run (stored : List ℤ) (steps : List (Input × Draws)) :
    ∀ g : GameState, NoChute stored g → (∀ step ∈ steps, step.1.spaceJustDown = false) →
      NoChute stored (run g steps) := by
  induction steps with
  | nil =>
    intro g h _
    exact h
  | cons step steps ih =>
    intro g h hsteps
    rw [run_cons]
    exact ih _ (NoChute_update stored g step.1 step.2 (hsteps step (List.mem_cons_self _ _)) h)
      (fun e he => hsteps e (List.mem_cons_of_mem _ he))

/-- C18: a player who never deploys the parachute never lands safely. Start from
a player in the jump state (`y = 60`, `velocityY = 1`, gravity 0.2, `maxSpeed`
7, height 60, not landed) and apply `update` for any sequence of left/right
inputs without `deployParachute`: whenever `checkCollision` then returns
`true`, for any obstacle list, the player has `alive = false`, and the ground
is only reached with `velocityY > 3`. For the scene: over any sequence of ticks
after `resetGame` in which `JustDown(spaceKey)` never reports a press, the
score stays 0, the high-score list stays as it was, and the player is never
both landed and alive. -/
theorem fall_without_parachute_crashes :
    (∀ (p : Player) (keys : List Cursors) (obstacles : List Obstacle),
      p.y = 60 → p.velocityY = 1 → p.gravity = 2 / 10 → p.maxSpeed = 7 → p.height = 60 →
      p.landed = false →
      ((fall p keys).y + (fall p keys).height ≥ GROUND_Y → (fall p keys).velocityY > 3) ∧
      (((fall p keys).checkCollision obstacles).2 = true →
        ((fall p keys).checkCollision obstacles).1.alive = false)) ∧
    (∀ (g : GameState) (d0 : Draws) (steps : List (Input × Draws)),
      (∀ step ∈ steps, step.1.spaceJustDown = false) →
      (run (resetGame g d0) steps).score = 0 ∧
      (run (resetGame g d0) steps).highScores = g.highScores ∧
      ¬ ((run (resetGame g d0) steps).player.landed = true ∧
          (run (resetGame g d0) steps).player.alive = true)) := by
  constructor
  · intro p keys obstacles hy hv hg hm hh hl
    have h0 : FreeFall p := by
      refine ⟨hg, hm, hh, hl, by rw [hv], fun _ => ?_⟩
      rw [hy, hv]
      norm_num
    have hn := FreeFall_fall keys p h0
    exact ⟨FreeFall_ground_is_fast _ hn, FreeFall_collision_kills _ obstacles hn⟩
  · intro g d0 steps hsteps
    obtain ⟨h1, h2, h3, _⟩ := NoChute_run g.highScores steps _ (NoChute_resetGame g d0) hsteps
    exact ⟨h1, h2, h3⟩

/-- Witness for C18: a player who leaves the plane at `(268, 60)` and steers left
for 79 ticks reaches the ground at 7 per tick and is not alive after
`checkCollision`; the round of `crashDraws` played for 300 ticks without the
parachute key has score 0. -/
theorem fall_without_parachute_crashes_witness :
    ((fall (Player.new 268 60) (List.replicate 79 ⟨true, false⟩)).y
        + (fall (Player.new 268 60) (List.replicate 79 ⟨true, false⟩)).height ≥ GROUND_Y ∧
      (fall (Player.new 268 60) (List.replicate 79 ⟨true, false⟩)).velocityY > 3 ∧
      ((fall (Player.new 268 60) (List.replicate 79 ⟨true, false⟩)).checkCollision
        []).1.alive = false) ∧
    (run (resetGame blankState crashDraws)
      (List.replicate 300 (⟨false, true, false, false⟩, crashDraws))).score = 0 :=
  have h := fall_without_parachute_crashes.1 (Player.new 268 60)
    (List.replicate 79 ⟨true, false⟩) [] rfl rfl rfl rfl rfl rfl
  ⟨⟨by decide!, h.1 (by decide!), h.2 (by decide!)⟩,
    (fall_without_parachute_crashes.2 blankState crashDraws
      (List.replicate 300 (⟨false, true, false, false⟩, crashDraws))
      (fun step hstep => by rw [List.eq_of_mem_replicate hstep])).1⟩

/-! ## Landing under the parachute -/

theorem Player.deployParachute_fields (p : Player) (h : p.parachuteDeployed = false) :
    p.deployParachute.parachuteDeployed = true ∧ p.deployParachute.gravity = 5 / 100 ∧
    p.deployParachute.maxSpeed = 2 ∧ p.deployParachute.alive = p.alive := by
  unfold Player.deployParachute
  rw [h]
  exact ⟨rfl, rfl, rfl, rfl⟩

theorem Player.checkCollision_soft (q : Player) (obstacles : List Obstacle)
    (hnone : q.hitsAny obstacles = false) (hground : q.y + q.height ≥ GROUND_Y)
    (hslow : q.velocityY ≤ 3) :
    q.checkCollision obstacles = ({ q with y := GROUND_Y - q.height, landed := true }, true) := by
  unfold Player.checkCollision
  rw [hnone, if_neg Bool.false_ne_true, if_pos hground, if_neg (not_lt.mpr hslow)]

/-- C19: under a deployed parachute ground contact is a soft landing. For every
alive player with `parachuteDeployed = true`, gravity 0.05 and `maxSpeed = 2`
that is not landed, whatever its `velocityY`: after `update` the speed is at
most 2, and if `checkCollision` then finds no obstacle overlap and the bottom
at or below the ground, it returns `true` with the player landed and still
alive. In the scene tick this covers the tick in which the parachute key is
reported, because the player block calls `deployParachute` before `update`:
the round ends in that tick with the player landed and alive. -/
theorem parachute_landing_is_soft :
    (∀ (p : Player) (cursors : Cursors) (obstacles : List Obstacle),
      p.parachuteDeployed = true → p.gravity = 5 / 100 → p.maxSpeed = 2 →
      p.landed = false → p.alive = true →
      (p.update cursors).hitsAny obstacles = false →
      (p.update cursors).y + (p.update cursors).height ≥ GROUND_Y →
      (p.update cursors).velocityY ≤ 2 ∧
      ((p.update cursors).checkCollision obstacles).2 = true ∧
      ((p.update cursors).checkCollision obstacles).1.landed = true ∧
      ((p.update cursors).checkCollision obstacles).1.alive = true) ∧
    (∀ (g : GameState) (inp : Input),
      g.jumping = true → g.gameOver = false → g.player.alive = true →
      g.player.landed = false → g.player.parachuteDeployed = false →
      inp.spaceJustDown = true →
      (movedPlayer g inp).hitsAny g.obstacles = false →
      (movedPlayer g inp).y + (movedPlayer g inp).height ≥ GROUND_Y →
      movedPlayer g inp = g.player.deployParachute.update ⟨inp.left, inp.right⟩ ∧
      (playerStep g inp).gameOver = true ∧
      (playerStep g inp).player.landed = true ∧
      (playerStep g inp).player.alive = true) := by
  have hplayer : ∀ (p : Player) (cursors : Cursors) (obstacles : List Obstacle),
      p.maxSpeed = 2 → p.landed = false → p.alive = true →
      (p.update cursors).hitsAny obstacles = false →
      (p.update cursors).y + (p.update cursors).height ≥ GROUND_Y →
      (p.update cursors).velocityY ≤ 2 ∧
      ((p.update cursors).checkCollision obstacles).2 = true ∧
      ((p.update cursors).checkCollision obstacles).1.landed = true ∧
      ((p.update cursors).checkCollision obstacles).1.alive = true := by
    intro p cursors obstacles hm hl halive hnone hground
    obtain ⟨u1, _, _, _, _, _, u7⟩ := p.update_vertical cursors hl
    have hv : (p.update cursors).velocityY ≤ 2 := by
      rw [u1, hm]
      exact min_le_left _ _
    rw [Player.checkCollision_soft _ obstacles hnone hground (by linarith)]
    exact ⟨hv, rfl, rfl, u7.trans halive⟩
  refine ⟨fun p cursors obstacles _ _ hm hl halive hnone hground =>
    hplayer p cursors obstacles hm hl halive hnone hground, ?_⟩
  intro g inp hjump hover halive hl hclosed hspace hnone hground
  have hmoved : movedPlayer g inp = g.player.deployParachute.update ⟨inp.left, inp.right⟩ := by
    unfold movedPlayer
    rw [hspace, hclosed]
    rfl
  obtain ⟨_, _, d3, d4⟩ := g.player.deployParachute_fields hclosed
  rw [hmoved] at hnone hground
  obtain ⟨_, r2, r3, r4⟩ := hplayer g.player.deployParachute ⟨inp.left, inp.right⟩ g.obstacles
    d3 ((Player.deployParachute_landed _).trans hl) (d4.trans halive) hnone hground
  rw [← hmoved] at r2 r3 r4
  refine ⟨hmoved, ?_⟩
  have hguard : (g.jumping && !g.gameOver && g.player.alive) = true := by
    rw [hjump, hover, halive]
    rfl
  unfold playerStep
  rw [if_pos hguard, if_pos r2]
  obtain ⟨e1, e2⟩ := endRound_frame
    { g with player := ((movedPlayer g inp).checkCollision g.obstacles).1 }
  rw [e1]
  exact ⟨e2, r3, r4⟩

/-- Witness for C19: at `y = 519` and falling at 7, the parachute key in
`lastMoment` brings the speed to 2 in the same tick; the player touches the
ground at `y + height = 581` and lands alive. The same holds for the already
deployed player alone. -/
theorem parachute_landing_is_soft_witness :
    (((lastMoment.player.deployParachute.update ⟨false, false⟩).velocityY ≤ 2 ∧
      ((lastMoment.player.deployParachute.update ⟨false, false⟩).checkCollision
        lastMoment.obstacles).2 = true ∧
      ((lastMoment.player.deployParachute.update ⟨false, false⟩).checkCollision
        lastMoment.obstacles).1.landed = true ∧
      ((lastMoment.player.deployParachute.update ⟨false, false⟩).checkCollision
        lastMoment.obstacles).1.alive = true)) ∧
    ((playerStep lastMoment parachuteKey).gameOver = true ∧
      (playerStep lastMoment parachuteKey).player.landed = true ∧
      (playerStep lastMoment parachuteKey).player.alive = true) :=
  ⟨parachute_landing_is_soft.1 lastMoment.player.deployParachute ⟨false, false⟩
      lastMoment.obstacles (by decide!) (by decide!) (by decide!) (by decide!) (by decide!)
      (by decide!) (by decide!),
   (parachute_landing_is_soft.2 lastMoment parachuteKey (by decide!) (by decide!) (by decide!)
      (by decide!) (by decide!) (by decide!) (by decide!) (by decide!)).2⟩

end ParachuteGame
